import Mathlib

/-!
# eco / ghost: bundle installer and request handlers

A shallow embedding of

* `src/cmds/cmds_install.go`  (`unInstallBundle`, `installBundle`, `processBundleFile`,
  `setupDBSchema`), namespace `Cmds`;
* `src/core/handlers.go` (`ShowList`, `ShowSingle`, `InsertRecord`, `DeleteRecord`,
  `UpdateRecord`), namespace `Core`.

The collaborators that are not part of these files (database, filesystem, bundle registry,
SQL templates, query builder, error translator) are parameters of the model, so every theorem
holds for each of their behaviours.
-/

set_option autoImplicit false

namespace Cmds

/-! ## Data model of the installer -/

/-- One entry of a directory listing (`os.FileInfo`): only `Name()` and `IsDir()` are used. -/
structure FileInfo where
  Name : String
  IsDir : Bool
deriving DecidableEq

/-- The call site a database statement is issued from. -/
inductive Step where
  | dropSchema
  | createSchema
  | grantPermissions
  | setSearchPath
  | bundleFile
deriving DecidableEq

/-- The observable actions of the installer, in the order they happen. The Boolean of an
action says whether it succeeded. Logging is not recorded. -/
inductive Event where
  | configSetup
  | isDir (path : String) (ok : Bool)
  | readInstallDir (path : String) (ok : Bool)
  | readDemoDir (path : String) (ok : Bool)
  | readFile (path : String) (ok : Bool)
  | exec (step : Step) (sql : String) (ok : Bool)
  | registryInstall (name : String) (ok : Bool)
  | registryUnInstall (name : String) (ok : Bool)
  | configWrite
deriving DecidableEq

/-- The collaborators of the installer. `σ` is the state of the database, `ρ` the state of
the bundle registry (`ghost.App.Config`).

* the four `SQLTo…` fields are `fmt.Sprintf` applied to the constant of that name;
* `pathJoin` is `path.Join`;
* `IsDir` gives `(exists, err != nil)` of `afero.IsDir`, `ReadDir` and `ReadFile` give `none`
  on an error;
* `Exec` is `db.Exec`: the new database state and whether the statement succeeded;
* `InstallBundle` / `UnInstallBundle` are the registry operations, with whether they succeeded;
* `noprompt` is `viper.GetBool("noprompt")`, `AskForConfirmation` the answer at the prompt. -/
structure Env (σ ρ : Type) where
  SQLToDropSchema : String → String
  SQLToCreateSchema : String → String
  SQLToGrantBundleAdminPermissions : String → String → String → String
  SQLToSetSearchPathForBundle : String → String
  pathJoin : String → String → String
  IsDir : String → Bool × Bool
  ReadDir : String → Option (List FileInfo)
  ReadFile : String → Option String
  Exec : σ → String → σ × Bool
  InstallBundle : ρ → String → ρ × Bool
  UnInstallBundle : ρ → String → ρ × Bool
  noprompt : Bool
  AskForConfirmation : Bool

/-- The package variables `isInstallDemoData` and `isReinstall` (command-line flags). -/
structure Flags where
  isInstallDemoData : Bool
  isReinstall : Bool
deriving DecidableEq

/-- The state the installer acts on: database and bundle registry. -/
structure World (σ ρ : Type) where
  db : σ
  reg : ρ

/-- How a command ends: it returns an `error` (`none` is `nil`), or `LogFatal` ended the
invocation. -/
inductive Ret where
  | returned (err : Option String)
  | exited
deriving DecidableEq

/-- The result of running a command: final state, actions performed, and how it ended. -/
structure Result (σ ρ : Type) where
  world : World σ ρ
  events : List Event
  ret : Ret

/-- The result of a helper that returns an `error`: `ok` is `err == nil`. -/
structure StepResult (σ ρ : Type) where
  world : World σ ρ
  events : List Event
  ok : Bool

variable {σ ρ : Type}

/-! ## The installer -/

/-- A call `db.Exec(sql)` issued from call site `step`. -/
def dbExec (env : Env σ ρ) (step : Step) (sql : String) (w : World σ ρ) : StepResult σ ρ :=
  let r := env.Exec w.db sql
  ⟨{ w with db := r.1 }, [Event.exec step sql r.2], r.2⟩

/-- Modelled from the spec: `ghost.LogFatal`, which is not in `cmds_install.go`. A failed
precondition or step is "fatal to the invocation" and "the CLI process exits"; the comments at
its calls say "Exit if doesn't exist" and "log and exit". The invocation ends there: nothing
that follows the call is run. -/
def LogFatal : Ret :=
  Ret.exited

/-- The function `unInstallBundle` (cmds_install.go, lines 61-106). -/
def unInstallBundle (env : Env σ ρ) (args : List String) (w : World σ ρ) : Result σ ρ :=
  match args with
  | [] => ⟨w, [Event.configSetup], Ret.returned (some "a bundle name must be provided")⟩
  | name :: _ =>
    let proceedWithInit := if env.noprompt then true else env.AskForConfirmation
    if proceedWithInit then
      -- the result of the drop is ignored
      let d := dbExec env Step.dropSchema (env.SQLToDropSchema name) w
      -- a failure of the registry update is logged only
      let u := env.UnInstallBundle d.world.reg name
      ⟨{ d.world with reg := u.1 },
        [Event.configSetup] ++ d.events ++ [Event.registryUnInstall name u.2, Event.configWrite],
        Ret.returned none⟩
    else
      ⟨w, [Event.configSetup], Ret.returned none⟩

/-- The function `processBundleFile` (lines 228-244): read the file, run its content. -/
def processBundleFile (env : Env σ ρ) (filename : String) (w : World σ ρ) : StepResult σ ρ :=
  match env.ReadFile filename with
  | none => ⟨w, [Event.readFile filename false], false⟩
  | some sqlBytes =>
    let r := dbExec env Step.bundleFile sqlBytes w
    ⟨r.world, Event.readFile filename true :: r.events, r.ok⟩

/-- The function `setupDBSchema` (lines 246-272): create schema, grant, set search path, each
returning at the first error. -/
def setupDBSchema (env : Env σ ρ) (bundleName : String) (w : World σ ρ) : StepResult σ ρ :=
  let c := dbExec env Step.createSchema (env.SQLToCreateSchema bundleName) w
  if c.ok then
    let g := dbExec env Step.grantPermissions
      (env.SQLToGrantBundleAdminPermissions bundleName bundleName bundleName) c.world
    if g.ok then
      let s := dbExec env Step.setSearchPath (env.SQLToSetSearchPathForBundle bundleName) g.world
      ⟨s.world, c.events ++ g.events ++ s.events, s.ok⟩
    else ⟨g.world, c.events ++ g.events, false⟩
  else ⟨c.world, c.events, false⟩

/-- The loops `for _, file := range filesInDirectory` of `installBundle` (lines 158-171 and
190-205): directories are skipped, the loop is left at the first file that fails. -/
def installFiles (env : Env σ ρ) (basePath : String) :
    List FileInfo → World σ ρ → StepResult σ ρ
  | [], w => ⟨w, [], true⟩
  | file :: files, w =>
    if file.IsDir then installFiles env basePath files w
    else
      let r := processBundleFile env (env.pathJoin basePath file.Name) w
      if r.ok then
        let rest := installFiles env basePath files r.world
        ⟨rest.world, r.events ++ rest.events, rest.ok⟩
      else ⟨r.world, r.events, false⟩

/-- The compensating action of `installBundle`: `db.Exec` of the drop-schema statement (its
result ignored), then `LogFatal`. -/
def dropSchemaAndFail (env : Env σ ρ) (name : String) (w : World σ ρ) (done : List Event) :
    Result σ ρ :=
  let d := dbExec env Step.dropSchema (env.SQLToDropSchema name) w
  ⟨d.world, done ++ d.events, LogFatal⟩

/-- Lines 209-224 of `installBundle`: registry update (a failure is logged only) and rewrite
of the config file. -/
def finishInstall (env : Env σ ρ) (name : String) (w : World σ ρ) (done : List Event) :
    Result σ ρ :=
  let i := env.InstallBundle w.reg name
  ⟨{ w with reg := i.1 }, done ++ [Event.registryInstall name i.2, Event.configWrite],
    Ret.returned none⟩

/-- Lines 173-207 of `installBundle`: the demo data, when asked for, then the end of the
installation. -/
def installDemoData (env : Env σ ρ) (isInstallDemoData : Bool) (name : String)
    (w : World σ ρ) (done : List Event) : Result σ ρ :=
  if isInstallDemoData then
    let basePath := "./bundles/" ++ name ++ "/demodata"
    match env.ReadDir basePath with
    | none => dropSchemaAndFail env name w (done ++ [Event.readDemoDir basePath false])
    | some [] => dropSchemaAndFail env name w (done ++ [Event.readDemoDir basePath false])
    | some (f :: fs) =>
      let r := installFiles env basePath (f :: fs) w
      if r.ok then
        finishInstall env name r.world (done ++ Event.readDemoDir basePath true :: r.events)
      else
        dropSchemaAndFail env name r.world (done ++ Event.readDemoDir basePath true :: r.events)
  else finishInstall env name w done

/-- Lines 135-224 of `installBundle`: everything after the optional uninstall. -/
def installFromListing (env : Env σ ρ) (isInstallDemoData : Bool) (name basePath : String)
    (w : World σ ρ) : Result σ ρ :=
  match env.ReadDir basePath with
  | none => ⟨w, [Event.readInstallDir basePath false], LogFatal⟩
  | some [] => ⟨w, [Event.readInstallDir basePath false], LogFatal⟩
  | some (f :: fs) =>
    let s := setupDBSchema env name w
    if s.ok then
      let r := installFiles env basePath (f :: fs) s.world
      if r.ok then
        installDemoData env isInstallDemoData name r.world
          (Event.readInstallDir basePath true :: (s.events ++ r.events))
      else
        dropSchemaAndFail env name r.world
          (Event.readInstallDir basePath true :: (s.events ++ r.events))
    else
      dropSchemaAndFail env name s.world (Event.readInstallDir basePath true :: s.events)

/-- The function `installBundle` (lines 109-226). -/
def installBundle (env : Env σ ρ) (flags : Flags) (args : List String) (w : World σ ρ) :
    Result σ ρ :=
  match args with
  | [] => ⟨w, [Event.configSetup], Ret.returned (some "a bundle name must be provided")⟩
  | name :: _ =>
    let basePath := "./bundles/" ++ name ++ "/install"
    let d := env.IsDir basePath
    if !d.1 || d.2 then
      ⟨w, [Event.configSetup, Event.isDir basePath false], LogFatal⟩
    else
      let u : Result σ ρ :=
        if flags.isReinstall then unInstallBundle env args w else ⟨w, [], Ret.returned none⟩
      let r := installFromListing env flags.isInstallDemoData name basePath u.world
      ⟨r.world, [Event.configSetup, Event.isDir basePath true] ++ u.events ++ r.events, r.ret⟩

end Cmds

namespace Core

/-! ## Data model of the request handlers -/

/-- The `error` values a handler can meet. `pq` is a `*pq.Error` of the database driver with
its `Code` and `Message`; `errNoRows` is `sql.ErrNoRows`; `eof` is `io.EOF`; `other` is any
other error value, given by the text of its `Error()`. -/
inductive GoError where
  | pq (Code : String) (Message : String)
  | errNoRows
  | eof
  | other (text : String)
deriving DecidableEq

/-- The method `Error()` of an error value. -/
def GoError.Error : GoError → String
  | GoError.pq _ m => "pq: " ++ m
  | GoError.errNoRows => "sql: no rows in result set"
  | GoError.eof => "EOF"
  | GoError.other t => t

/-- The type assertion `err.(*pq.Error)`: `none` is the run-time panic of a failed
assertion. -/
def GoError.asPqError : GoError → Option (String × String)
  | GoError.pq c m => some (c, m)
  | _ => none

/-- Whether `sub` occurs in a list of characters. -/
def containsChars : List Char → List Char → Bool
  | [], sub => sub.isEmpty
  | c :: cs, sub => sub.isPrefixOf (c :: cs) || containsChars cs sub

/-- The function `strings.Contains`. -/
def stringsContains (s sub : String) : Bool :=
  containsChars s.data sub.data

/-- The pieces of a list of characters between the occurrences of `sep`. -/
def splitChars (sep : Char) : List Char → List (List Char)
  | [] => [[]]
  | c :: cs =>
    if c = sep then [] :: splitChars sep cs
    else
      match splitChars sep cs with
      | [] => [[c]]
      | p :: ps => (c :: p) :: ps

/-- The function `strings.Split` for a separator of one character. -/
def stringsSplit (s : String) (sep : Char) : List String :=
  (splitChars sep s.data).map String.mk

/-- The expression `strings.Split(table, "_")[0]` of the write handlers. -/
def baseTable (table : String) : String :=
  (stringsSplit table '_').headD ""

/-- The type `url.Values`. -/
abbrev UrlValues := List (String × List String)

/-- The type `map[string]interface{}` of a decoded request body: keys with the JSON text of
their values. `nil` and the empty map are both `[]`. -/
abbrev RequestBody := List (String × String)

/-- The values on `r.Context()`: `none` is a value that is absent (or not a string). -/
structure Context where
  role : Option String
  userID : Option String
  schema : Option String
  table : Option String
  record : Option String
  queries : Option UrlValues

/-- The effect of `json.NewDecoder(r.Body).Decode(&requestBody)`: the value left in
`requestBody` and the error returned. An error can come with entries in the mapping: the
decoding of `{"a":1,"b":1e999}` fails on the number after the entries are made. -/
structure Decoded where
  requestBody : RequestBody
  bodyDecodeError : Option GoError

/-- A request: its context and its body (`none` is `r.Body == nil`). -/
structure Request where
  ctx : Context
  Body : Option Decoded

/-- The error payload: status, database code, message, schema, table, record. -/
structure ResponseError where
  httpStatus : Nat
  dbErrorCode : String
  message : String
  schema : String
  table : String
  record : String
deriving DecidableEq

/-- What a handler does to the response.
* `errorJSON status e` is `render.Status(r, status); render.JSON(w, r, e)`;
* `write contentType body` is `w.Header().Set("Content-Type", contentType); w.Write(body)`,
  which leaves the status at its default, 200;
* `noContent` is `render.NoContent(w, r)`;
* `panic` is a run-time panic: no response is rendered by the handler. -/
inductive Response where
  | errorJSON (status : Nat) (payload : ResponseError)
  | write (contentType : String) (body : String)
  | noContent
  | panic
deriving DecidableEq

/-- The HTTP status of a response, when the handler renders one. -/
def Response.status : Response → Option Nat
  | Response.errorJSON status _ => some status
  | Response.write _ _ => some 200
  | Response.noContent => some 204
  | Response.panic => none

/-- The query builder, SQL templates and error translator of package `core`, none of which
is in `handlers.go`. `Q` is the type of a query under construction; a `SQLTo…` field is
`fmt.Sprintf` applied to the constant of that name. -/
structure Sql (Q : Type) where
  QueryBuilder : String → String → UrlValues → Q
  SqlQuery : String → Q
  RequestMultipleResultsAsJSONArray : Q → Q
  RequestSingleResultAsJSONObject : Q → Q
  SetQueryRole : Q → String → Q
  SetUserID : Q → String → Q
  ToSQLString : Q → String
  SQLToSelectWhere : String → String → String → String
  SQLToInsertAllDefaultsReturningJSON : String → String → String → String
  SQLToInsertReturningJSON : String → String → String → String → String → String
  SQLToDeleteWhere : String → String → String → String
  SQLToUpdateWhereReturningJSON :
    String → String → String → String → String → String → String
  MapToValsAndCols : RequestBody → String × String
  DBErrorCodeToHTTPErrorCode : String → Nat

/-- The shared handle `DB` over a database of state `σ`: `QueryRowScan` is
`DB.QueryRow(sql).Scan(&json)`, `Exec` is `DB.Exec(sql)` with the count of `RowsAffected()`. -/
structure DB (σ : Type) where
  QueryRowScan : σ → String → σ × Except GoError String
  Exec : σ → String → σ × Except GoError Int

/-- The result of a handler: the database state, the statements executed, the response. -/
structure Handled (σ : Type) where
  db : σ
  executed : List String
  response : Response

/-- Modelled from the spec: `AllOK`, which is not in `handlers.go`; a request is refused
"if any required value is absent". -/
def AllOK (oks : List Bool) : Bool :=
  oks.all id

/-- The content type the handlers set on a success body. -/
def jsonContentType : String := "application/json; charset=utf-8"

/-- The response to a request whose context lacks a required value. -/
def missingContext : Response :=
  Response.errorJSON 400 ⟨400, "", "Missing required values on context", "", "", ""⟩

variable {σ Q : Type}

/-- The translation of an execution error, common to the handlers: the unchecked
`dbError := err.(*pq.Error)`, then `DBErrorCodeToHTTPErrorCode` and the rendering. -/
def renderDBError (q : Sql Q) (err : GoError) (schema table record : String) : Response :=
  match err.asPqError with
  | none => Response.panic
  | some (code, message) =>
    let httpCode := q.DBErrorCodeToHTTPErrorCode code
    Response.errorJSON httpCode ⟨httpCode, code, message, schema, table, record⟩

/-! ## The handlers -/

/-- The statement of `ShowList` (line 52). -/
def listSQLString (q : Sql Q) (role userID schema table : String) (queries : UrlValues) :
    String :=
  q.ToSQLString (q.SetUserID (q.SetQueryRole
    (q.RequestMultipleResultsAsJSONArray (q.QueryBuilder schema table queries)) role) userID)

/-- The statement of `ShowSingle` (line 95). -/
def singleSQLString (q : Sql Q) (role userID schema table record : String) : String :=
  q.ToSQLString (q.SetUserID (q.SetQueryRole
    (q.RequestSingleResultAsJSONObject (q.SqlQuery (q.SQLToSelectWhere schema table record)))
    role) userID)

/-- The statement of `DeleteRecord` (line 200). -/
def deleteSQLString (q : Sql Q) (role userID schema table record : String) : String :=
  q.ToSQLString (q.SetUserID (q.SetQueryRole
    (q.SqlQuery (q.SQLToDeleteWhere schema table record)) role) userID)

/-- The statement of `UpdateRecord` (lines 270-271). -/
def updateSQLString (q : Sql Q) (role userID schema table record : String)
    (requestBody : RequestBody) : String :=
  let colsVals := q.MapToValsAndCols requestBody
  q.ToSQLString (q.SetUserID (q.SetQueryRole (q.SqlQuery
    (q.SQLToUpdateWhereReturningJSON schema table colsVals.1 colsVals.2 record table))
    role) userID)

/-- The handler `ShowList` (handlers.go, lines 31-72). -/
def ShowList (q : Sql Q) (db : DB σ) (r : Request) (s : σ) : Handled σ :=
  let role := r.ctx.role.getD ""
  let userID := r.ctx.userID.getD ""
  let schema := r.ctx.schema.getD ""
  let table := r.ctx.table.getD ""
  let queries := r.ctx.queries.getD []
  if !AllOK [r.ctx.role.isSome, r.ctx.userID.isSome, r.ctx.schema.isSome,
      r.ctx.table.isSome] then
    ⟨s, [], missingContext⟩
  else
    let sqlString := listSQLString q role userID schema table queries
    match db.QueryRowScan s sqlString with
    | (s1, Except.error err) =>
      if stringsContains err.Error "sql" then
        ⟨s1, [sqlString], Response.write jsonContentType "[]"⟩
      else
        ⟨s1, [sqlString], renderDBError q err schema table ""⟩
    | (s1, Except.ok json) => ⟨s1, [sqlString], Response.write jsonContentType json⟩

/-- The handler `ShowSingle` (lines 75-110). -/
def ShowSingle (q : Sql Q) (db : DB σ) (r : Request) (s : σ) : Handled σ :=
  let role := r.ctx.role.getD ""
  let userID := r.ctx.userID.getD ""
  let schema := r.ctx.schema.getD ""
  let table := r.ctx.table.getD ""
  let record := r.ctx.record.getD ""
  if !AllOK [r.ctx.role.isSome, r.ctx.userID.isSome, r.ctx.schema.isSome,
      r.ctx.table.isSome, r.ctx.record.isSome] then
    ⟨s, [], missingContext⟩
  else
    let sqlString := singleSQLString q role userID schema table record
    match db.QueryRowScan s sqlString with
    | (s1, Except.error err) => ⟨s1, [sqlString], renderDBError q err schema table record⟩
    | (s1, Except.ok json) => ⟨s1, [sqlString], Response.write jsonContentType json⟩

/-- The all-defaults statement of `InsertRecord` (line 157). -/
def insertDefaultsSQLString (q : Sql Q) (role userID schema table : String) : String :=
  q.ToSQLString (q.SetUserID (q.SetQueryRole (q.RequestSingleResultAsJSONObject
    (q.SqlQuery (q.SQLToInsertAllDefaultsReturningJSON schema table table))) role) userID)

/-- The explicit column/value statement of `InsertRecord` (lines 160-161). -/
def insertValuesSQLString (q : Sql Q) (role userID schema table : String)
    (requestBody : RequestBody) : String :=
  let colsVals := q.MapToValsAndCols requestBody
  q.ToSQLString (q.SetUserID (q.SetQueryRole (q.RequestSingleResultAsJSONObject
    (q.SqlQuery (q.SQLToInsertReturningJSON schema table colsVals.1 colsVals.2 table)))
    role) userID)

/-- The statement `InsertRecord` builds (lines 154-162): the all-defaults insert for a nil
body, a blank body or an empty mapping, the explicit insert otherwise. -/
def insertSQLString (q : Sql Q) (role userID schema table : String) (body : Option Decoded) :
    String :=
  let requestBody := (body.map Decoded.requestBody).getD []
  let bodyDecodeError := body.bind Decoded.bodyDecodeError
  if body.isNone || bodyDecodeError = some GoError.eof || requestBody.length == 0 then
    insertDefaultsSQLString q role userID schema table
  else
    insertValuesSQLString q role userID schema table requestBody

/-- Lines 164-174 of `InsertRecord`: hit the database and deal with errors. -/
def insertAndRespond (q : Sql Q) (db : DB σ) (sqlString schema table : String) (s : σ) :
    Handled σ :=
  match db.QueryRowScan s sqlString with
  | (s1, Except.error err) => ⟨s1, [sqlString], renderDBError q err schema table ""⟩
  | (s1, Except.ok dbResponse) => ⟨s1, [sqlString], Response.write jsonContentType dbResponse⟩

/-- The handler `InsertRecord` (lines 112-176). -/
def InsertRecord (q : Sql Q) (db : DB σ) (r : Request) (s : σ) : Handled σ :=
  let role := r.ctx.role.getD ""
  let userID := r.ctx.userID.getD ""
  let schema := r.ctx.schema.getD ""
  let table := r.ctx.table.getD ""
  if !AllOK [r.ctx.role.isSome, r.ctx.userID.isSome, r.ctx.schema.isSome,
      r.ctx.table.isSome] then
    ⟨s, [], missingContext⟩
  else
    let table := baseTable table
    let bodyDecodeError := r.Body.bind Decoded.bodyDecodeError
    match bodyDecodeError with
    | some err =>
      if err ≠ GoError.eof then
        ⟨s, [], Response.errorJSON 400 ⟨400, "", err.Error, schema, table, ""⟩⟩
      else
        insertAndRespond q db (insertSQLString q role userID schema table r.Body) schema table s
    | none =>
      insertAndRespond q db (insertSQLString q role userID schema table r.Body) schema table s

/-- The handler `DeleteRecord` (lines 178-219). -/
def DeleteRecord (q : Sql Q) (db : DB σ) (r : Request) (s : σ) : Handled σ :=
  let role := r.ctx.role.getD ""
  let userID := r.ctx.userID.getD ""
  let schema := r.ctx.schema.getD ""
  let table := r.ctx.table.getD ""
  let record := r.ctx.record.getD ""
  if !AllOK [r.ctx.role.isSome, r.ctx.userID.isSome, r.ctx.schema.isSome,
      r.ctx.table.isSome, r.ctx.record.isSome] then
    ⟨s, [], missingContext⟩
  else
    let table := baseTable table
    let sqlString := deleteSQLString q role userID schema table record
    match db.Exec s sqlString with
    | (s1, Except.error err) => ⟨s1, [sqlString], renderDBError q err schema table record⟩
    | (s1, Except.ok n) =>
      if n = 0 then
        ⟨s1, [sqlString], Response.errorJSON 404
          ⟨404, "", "No record with that id", schema, table, record⟩⟩
      else ⟨s1, [sqlString], Response.noContent⟩

/-- The handler `UpdateRecord` (lines 221-292). -/
def UpdateRecord (q : Sql Q) (db : DB σ) (r : Request) (s : σ) : Handled σ :=
  let role := r.ctx.role.getD ""
  let userID := r.ctx.userID.getD ""
  let schema := r.ctx.schema.getD ""
  let table := r.ctx.table.getD ""
  let record := r.ctx.record.getD ""
  if !AllOK [r.ctx.role.isSome, r.ctx.userID.isSome, r.ctx.schema.isSome,
      r.ctx.table.isSome, r.ctx.record.isSome] then
    ⟨s, [], missingContext⟩
  else
    let table := baseTable table
    let requestBody := (r.Body.map Decoded.requestBody).getD []
    let bodyDecodeError := r.Body.bind Decoded.bodyDecodeError
    if r.Body.isNone || requestBody.length == 0 then
      let message :=
        match bodyDecodeError with
        | some err => err.Error
        | none => "Invalid or absent request body"
      ⟨s, [], Response.errorJSON 400 ⟨400, "", message, schema, table, record⟩⟩
    else
      let sqlString := updateSQLString q role userID schema table record requestBody
      match db.QueryRowScan s sqlString with
      | (s1, Except.error err) =>
        if stringsContains err.Error "sql" then
          ⟨s1, [sqlString], Response.errorJSON 404
            ⟨404, "", "No record with that id", schema, table, record⟩⟩
        else ⟨s1, [sqlString], renderDBError q err schema table ""⟩
      | (s1, Except.ok dbResponse) =>
        ⟨s1, [sqlString], Response.write jsonContentType dbResponse⟩

end Core

/-! ## Predicates on the installer's actions and on errors -/

namespace Cmds

/-- An installation step that failed: a statement of `setupDBSchema` or of a bundle file whose
execution failed, a bundle file that could not be read, or a demo-data directory that could not
be read or was empty. The drop-schema statement is not an installation step. -/
def Event.failedStep : Event → Bool
  | Event.readDemoDir _ ok => !ok
  | Event.readFile _ ok => !ok
  | Event.exec Step.dropSchema _ _ => false
  | Event.exec _ _ ok => !ok
  | _ => false

/-- A call of the registry's `InstallBundle`. -/
def Event.isRegistryInstall : Event → Bool
  | Event.registryInstall _ _ => true
  | _ => false

/-- A call of the registry's `UnInstallBundle`. -/
def Event.isRegistryUnInstall : Event → Bool
  | Event.registryUnInstall _ _ => true
  | _ => false

/-- A database statement (`db.Exec`). -/
def Event.isStatement : Event → Bool
  | Event.exec _ _ _ => true
  | _ => false

/-- A create-schema statement. -/
def Event.isCreateSchema : Event → Bool
  | Event.exec Step.createSchema _ _ => true
  | _ => false

/-- Neither a failed installation step nor a call of the registry's `InstallBundle`. -/
def Event.quiet (e : Event) : Bool :=
  !e.failedStep && !e.isRegistryInstall

/-- A run of actions without a failed installation step and without registry install. -/
def Quiet (evs : List Event) : Prop :=
  ∀ e ∈ evs, e.quiet = true

/-- The actions of a helper that returns an `error`: either it succeeded and all its actions
are quiet, or it failed and its last action is the failed step, the ones before being quiet. -/
def StepGood {σ ρ : Type} (r : StepResult σ ρ) : Prop :=
  (r.ok = true ∧ Quiet r.events) ∨
    (r.ok = false ∧ ∃ p f, r.events = p ++ [f] ∧ Quiet p ∧ f.failedStep = true)

/-- The actions of a rolled-back installation: quiet actions, the failed step, the drop of
the schema `name`. -/
def RolledBack {σ ρ : Type} (env : Env σ ρ) (name : String) (evs : List Event) : Prop :=
  ∃ p f ok, evs = p ++ [f, Event.exec Step.dropSchema (env.SQLToDropSchema name) ok] ∧
    Quiet p ∧ f.failedStep = true

/-- A run either ended in `LogFatal`, or its last action is the rewrite of the config file. -/
def Ended {σ ρ : Type} (r : Result σ ρ) : Prop :=
  r.ret = Ret.exited ∨ ∃ l, r.events = l ++ [Event.configWrite]

/-- No installation step failed. -/
def Clean (evs : List Event) : Prop :=
  ∀ e ∈ evs, e.failedStep = false

/-- The install directory of a bundle. -/
def installPath (name : String) : String :=
  "./bundles/" ++ name ++ "/install"

/-! ### A concrete installation

The database is the list of the schemas that exist, the registry the list of the bundles
installed. A statement `DROP n` removes schema `n`, `CREATE n` adds it and fails when it
exists, `BAD` fails, every other statement succeeds. Bundle `shop` has the install files
`a.sql`, `b.sql` and a sub-directory; `b.sql` holds `BAD` when `broken` is set. -/

/-- The database of the concrete installation. -/
def sampleExec (db : List String) (sql : String) : List String × Bool :=
  match sql.data with
  | 'D' :: 'R' :: 'O' :: 'P' :: ' ' :: n => (db.filter (fun x => x ≠ String.mk n), true)
  | 'C' :: 'R' :: 'E' :: 'A' :: 'T' :: 'E' :: ' ' :: n =>
    if String.mk n ∈ db then (db, false) else (String.mk n :: db, true)
  | ['B', 'A', 'D'] => (db, false)
  | _ => (db, true)

/-- The concrete installation: `dirExists` says whether `./bundles/shop/install` exists,
`broken` whether `b.sql` fails. -/
def sampleEnv (dirExists broken : Bool) : Env (List String) (List String) where
  SQLToDropSchema := fun n => "DROP " ++ n
  SQLToCreateSchema := fun n => "CREATE " ++ n
  SQLToGrantBundleAdminPermissions := fun a _ _ => "GRANT " ++ a
  SQLToSetSearchPathForBundle := fun n => "SET " ++ n
  pathJoin := fun a b => a ++ "/" ++ b
  IsDir := fun p => (dirExists && p = "./bundles/shop/install", false)
  ReadDir := fun p =>
    if dirExists && p = "./bundles/shop/install" then
      some [⟨"a.sql", false⟩, ⟨"sub", true⟩, ⟨"b.sql", false⟩]
    else none
  ReadFile := fun p =>
    if p = "./bundles/shop/install/a.sql" then some "TABLES"
    else if p = "./bundles/shop/install/b.sql" then some (if broken then "BAD" else "VIEWS")
    else none
  Exec := sampleExec
  InstallBundle := fun reg n => (n :: reg, true)
  UnInstallBundle := fun reg n => (reg.filter (fun x => x ≠ n), true)
  noprompt := true
  AskForConfirmation := false

/-- The concrete installation with the confirmation prompt answered `no`. -/
def sampleEnvDeclined : Env (List String) (List String) :=
  { sampleEnv true false with noprompt := false, AskForConfirmation := false }

/-- A state in which bundle `shop` is installed. -/
def sampleWorld : World (List String) (List String) :=
  ⟨["shop"], ["shop"]⟩

end Cmds

namespace Core

/-- The errors with which Go's `database/sql` reports that a single-row scan found nothing to
return: `sql.ErrNoRows`, and a scan error (text "sql: Scan error …") on the empty result. -/
def GoError.isNoRows : GoError → Bool
  | GoError.errNoRows => true
  | GoError.other t => "sql: Scan error".data.isPrefixOf t.data
  | _ => false

/-! ### A concrete database behind the handlers

The database state is the list of the record ids of one table. The statements are the words
`LIST`, `SELECT id`, `INSERT`, `INSERT VALUES`, `UPDATE id`, `DELETE id`; role and user id are not written
into the statement. -/

/-- The query builder of the concrete database. -/
def sampleSql : Sql String where
  QueryBuilder := fun _ _ _ => "LIST"
  SqlQuery := fun x => x
  RequestMultipleResultsAsJSONArray := fun x => x
  RequestSingleResultAsJSONObject := fun x => x
  SetQueryRole := fun x _ => x
  SetUserID := fun x _ => x
  ToSQLString := fun x => x
  SQLToSelectWhere := fun _ _ record => "SELECT " ++ record
  SQLToInsertAllDefaultsReturningJSON := fun _ _ _ => "INSERT"
  SQLToInsertReturningJSON := fun _ _ _ _ _ => "INSERT VALUES"
  SQLToDeleteWhere := fun _ _ record => "DELETE " ++ record
  SQLToUpdateWhereReturningJSON := fun _ _ _ _ record _ => "UPDATE " ++ record
  MapToValsAndCols := fun _ => ("", "")
  DBErrorCodeToHTTPErrorCode := fun code => if code = "23505" then 409 else 500

/-- The single-row queries of the concrete database: a list of no rows and a record that is
absent give the errors of `database/sql`, an unknown statement a driver error. -/
def sampleQueryRowScan (s : List String) (sql : String) : List String × Except GoError String :=
  match sql.data with
  | ['L', 'I', 'S', 'T'] =>
    if s = [] then (s, Except.error (GoError.other "sql: Scan error on column index 0"))
    else (s, Except.ok "[rows]")
  | 'S' :: 'E' :: 'L' :: 'E' :: 'C' :: 'T' :: ' ' :: id =>
    if String.mk id ∈ s then (s, Except.ok "row") else (s, Except.error GoError.errNoRows)
  | 'U' :: 'P' :: 'D' :: 'A' :: 'T' :: 'E' :: ' ' :: id =>
    if String.mk id ∈ s then (s, Except.ok "row") else (s, Except.error GoError.errNoRows)
  | 'I' :: 'N' :: 'S' :: 'E' :: 'R' :: 'T' :: _ => ("new" :: s, Except.ok "row")
  | _ => (s, Except.error (GoError.pq "42601" "syntax error"))

/-- The statements without result of the concrete database: `DELETE id` removes the records
with that id and counts them. -/
def sampleExec (s : List String) (sql : String) : List String × Except GoError Int :=
  match sql.data with
  | 'D' :: 'E' :: 'L' :: 'E' :: 'T' :: 'E' :: ' ' :: id =>
    (s.filter (fun x => x ≠ String.mk id),
      Except.ok ((s.filter (fun x => x = String.mk id)).length : Int))
  | _ => (s, Except.error (GoError.pq "42601" "syntax error"))

/-- The concrete database. -/
def sampleDB : DB (List String) where
  QueryRowScan := sampleQueryRowScan
  Exec := sampleExec

/-- A request context for record `7` of table `orders_view` in schema `shop`. -/
def sampleContext : Context where
  role := some "web"
  userID := some "u1"
  schema := some "shop"
  table := some "orders_view"
  record := some "7"
  queries := none

/-- A database whose every call fails with the error `err`. -/
def failingDB (err : GoError) : DB Unit where
  QueryRowScan := fun s _ => (s, Except.error err)
  Exec := fun s _ => (s, Except.error err)

/-- A query builder that writes schema, table and record into the statement; role and user
id are not written. -/
def tableSql : Sql String where
  QueryBuilder := fun schema table _ => "SELECT * FROM " ++ schema ++ "." ++ table
  SqlQuery := fun x => x
  RequestMultipleResultsAsJSONArray := fun x => x
  RequestSingleResultAsJSONObject := fun x => x
  SetQueryRole := fun x _ => x
  SetUserID := fun x _ => x
  ToSQLString := fun x => x
  SQLToSelectWhere := fun schema table record =>
    "SELECT * FROM " ++ schema ++ "." ++ table ++ " WHERE id = " ++ record
  SQLToInsertAllDefaultsReturningJSON := fun schema table _ =>
    "INSERT INTO " ++ schema ++ "." ++ table ++ " DEFAULT VALUES"
  SQLToInsertReturningJSON := fun schema table cols vals _ =>
    "INSERT INTO " ++ schema ++ "." ++ table ++ " (" ++ cols ++ ") VALUES (" ++ vals ++ ")"
  SQLToDeleteWhere := fun schema table record =>
    "DELETE FROM " ++ schema ++ "." ++ table ++ " WHERE id = " ++ record
  SQLToUpdateWhereReturningJSON := fun schema table cols vals record _ =>
    "UPDATE " ++ schema ++ "." ++ table ++ " SET (" ++ cols ++ ") = (" ++ vals ++
      ") WHERE id = " ++ record
  MapToValsAndCols := fun _ => ("total", "3")
  DBErrorCodeToHTTPErrorCode := fun code => if code = "23505" then 409 else 500

/-- The request context of `sampleContext` with another table name. -/
def contextOfTable (table : String) : Context :=
  { sampleContext with table := some table }

/-- The portion of a name before its first underscore, the whole name when it has none: the
normalization of a table name in the words of the specification. -/
def beforeFirstUnderscore (table : String) : String :=
  String.mk (table.data.takeWhile (fun c => c ≠ '_'))

/-- The portion of a name before its first hyphen or underscore: the normalization the
comments of the write handlers describe ("before the first hyphen/underscore"). -/
def beforeFirstSeparator (table : String) : String :=
  String.mk (table.data.takeWhile (fun c => c ≠ '-' ∧ c ≠ '_'))

end Core

/-! # Theorems about the installer -/

namespace Cmds

variable {σ ρ : Type}

theorem quiet_nil : Quiet [] := by
  intro e he
  simp at he

theorem quiet_cons {e : Event} {evs : List Event} (he : e.quiet = true) (h : Quiet evs) :
    Quiet (e :: evs) := by
  intro x hx
  rcases List.mem_cons.mp hx with rfl | hx
  · exact he
  · exact h x hx

theorem quiet_append {xs ys : List Event} (hx : Quiet xs) (hy : Quiet ys) :
    Quiet (xs ++ ys) := by
  intro x hmem
  rcases List.mem_append.mp hmem with h | h
  · exact hx x h
  · exact hy x h

theorem failedStep_not_quiet {e : Event} (h : e.failedStep = true) : e.quiet = false := by
  simp [Event.quiet, h]

theorem quiet_not_failedStep {e : Event} (h : e.quiet = true) : e.failedStep = false := by
  cases hf : e.failedStep
  · rfl
  · simp [Event.quiet, hf] at h

theorem quiet_not_registryInstall {e : Event} (h : e.quiet = true) :
    e.isRegistryInstall = false := by
  cases hf : e.isRegistryInstall
  · rfl
  · simp [Event.quiet, hf] at h

theorem failedStep_not_registryInstall {e : Event} (h : e.failedStep = true) :
    e.isRegistryInstall = false := by
  cases e <;> simp [Event.failedStep, Event.isRegistryInstall] at h ⊢

/-- A statement of the installation proper is a good step. -/
theorem dbExec_good (env : Env σ ρ) (step : Step) (sql : String) (w : World σ ρ)
    (hstep : step ≠ Step.dropSchema) : StepGood (dbExec env step sql w) := by
  unfold StepGood dbExec
  dsimp only
  cases (env.Exec w.db sql).2
  · right
    refine ⟨rfl, [], Event.exec step sql false, by simp, quiet_nil, ?_⟩
    cases step <;> simp [Event.failedStep] at hstep ⊢
  · left
    refine ⟨rfl, quiet_cons ?_ quiet_nil⟩
    cases step <;> simp [Event.quiet, Event.failedStep, Event.isRegistryInstall] at hstep ⊢

/-- Quiet actions followed by a good step are a good step. -/
theorem stepGood_prepend {r : StepResult σ ρ} {q : List Event} (hq : Quiet q)
    (h : StepGood r) : StepGood (⟨r.world, q ++ r.events, r.ok⟩ : StepResult σ ρ) := by
  rcases h with ⟨hok, hev⟩ | ⟨hok, p, f, hev, hp, hf⟩
  · exact Or.inl ⟨hok, quiet_append hq hev⟩
  · refine Or.inr ⟨hok, q ++ p, f, ?_, quiet_append hq hp, hf⟩
    simp [hev]

theorem processBundleFile_good (env : Env σ ρ) (filename : String) (w : World σ ρ) :
    StepGood (processBundleFile env filename w) := by
  unfold processBundleFile
  cases hread : env.ReadFile filename with
  | none =>
    exact Or.inr ⟨rfl, [], Event.readFile filename false, by simp, quiet_nil, rfl⟩
  | some sqlBytes =>
    have h := dbExec_good env Step.bundleFile sqlBytes w (by decide)
    have hq : Quiet [Event.readFile filename true] := quiet_cons rfl quiet_nil
    simpa using stepGood_prepend hq h

theorem setupDBSchema_good (env : Env σ ρ) (bundleName : String) (w : World σ ρ) :
    StepGood (setupDBSchema env bundleName w) := by
  unfold setupDBSchema
  have hc := dbExec_good env Step.createSchema (env.SQLToCreateSchema bundleName) w (by decide)
  rcases hc with ⟨hcok, hcq⟩ | ⟨hcok, hcf⟩
  · have hg := dbExec_good env Step.grantPermissions
      (env.SQLToGrantBundleAdminPermissions bundleName bundleName bundleName)
      (dbExec env Step.createSchema (env.SQLToCreateSchema bundleName) w).world (by decide)
    simp only [hcok, if_true]
    rcases hg with ⟨hgok, hgq⟩ | ⟨hgok, hgf⟩
    · simp only [hgok, if_true]
      have hs := dbExec_good env Step.setSearchPath (env.SQLToSetSearchPathForBundle bundleName)
        (dbExec env Step.grantPermissions
          (env.SQLToGrantBundleAdminPermissions bundleName bundleName bundleName)
          (dbExec env Step.createSchema (env.SQLToCreateSchema bundleName) w).world).world
        (by decide)
      exact stepGood_prepend (quiet_append hcq hgq) hs
    · simp only [hgok]
      have := stepGood_prepend hcq (Or.inr ⟨hgok, hgf⟩ : StepGood _)
      simpa [hgok] using this
  · simp only [hcok]
    exact Or.inr ⟨rfl, hcf⟩

theorem installFiles_good (env : Env σ ρ) (basePath : String) (files : List FileInfo) :
    ∀ w : World σ ρ, StepGood (installFiles env basePath files w) := by
  induction files with
  | nil =>
    intro w
    exact Or.inl ⟨rfl, quiet_nil⟩
  | cons file files ih =>
    intro w
    unfold installFiles
    by_cases hdir : file.IsDir = true
    · simp only [hdir, if_true]
      exact ih w
    · simp only [hdir]
      have hp := processBundleFile_good env (env.pathJoin basePath file.Name) w
      rcases hp with ⟨hok, hq⟩ | ⟨hok, hf⟩
      · simp only [hok, if_true]
        exact stepGood_prepend hq (ih _)
      · simp only [hok]
        exact Or.inr ⟨rfl, hf⟩

/-- The compensating action after a failed step gives a rolled-back run. -/
theorem dropSchemaAndFail_rolledBack (env : Env σ ρ) (name : String) (w : World σ ρ)
    (p : List Event) (f : Event) (hp : Quiet p) (hf : f.failedStep = true) :
    RolledBack env name (dropSchemaAndFail env name w (p ++ [f])).events := by
  refine ⟨p, f, (env.Exec w.db (env.SQLToDropSchema name)).2, ?_, hp, hf⟩
  simp [dropSchemaAndFail, dbExec]

/-- The end of a successful installation has no failed step. -/
theorem finishInstall_clean (env : Env σ ρ) (name : String) (w : World σ ρ)
    (done : List Event) (hd : Quiet done) : Clean (finishInstall env name w done).events := by
  intro e he
  simp only [finishInstall, List.mem_append, List.mem_cons, List.mem_singleton,
    List.mem_nil_iff, or_false] at he
  rcases he with h | rfl | rfl
  · exact quiet_not_failedStep (hd e h)
  · rfl
  · rfl

/-- A failed helper, run after quiet actions, then the compensating action: rolled back. -/
theorem rolledBack_of_failed (env : Env σ ρ) (name : String) (w : World σ ρ)
    (q evs : List Event) (hq : Quiet q)
    (h : ∃ p f, evs = p ++ [f] ∧ Quiet p ∧ f.failedStep = true) :
    RolledBack env name (dropSchemaAndFail env name w (q ++ evs)).events := by
  obtain ⟨p, f, hev, hp, hf⟩ := h
  have := dropSchemaAndFail_rolledBack env name w (q ++ p) f (quiet_append hq hp) hf
  simpa [hev] using this

theorem installDemoData_outcome (env : Env σ ρ) (isInstallDemoData : Bool) (name : String)
    (w : World σ ρ) (done : List Event) (hd : Quiet done) :
    Clean (installDemoData env isInstallDemoData name w done).events ∨
      RolledBack env name (installDemoData env isInstallDemoData name w done).events := by
  unfold installDemoData
  cases isInstallDemoData with
  | false => exact Or.inl (finishInstall_clean env name w done hd)
  | true =>
    simp only [if_true]
    have hfailDir : ∀ path, (Event.readDemoDir path false).failedStep = true := fun _ => rfl
    cases hread : env.ReadDir ("./bundles/" ++ name ++ "/demodata") with
    | none => exact Or.inr (dropSchemaAndFail_rolledBack env name w done _ hd (hfailDir _))
    | some files =>
      cases files with
      | nil => exact Or.inr (dropSchemaAndFail_rolledBack env name w done _ hd (hfailDir _))
      | cons f fs =>
        dsimp only
        have hq : Quiet [Event.readDemoDir ("./bundles/" ++ name ++ "/demodata") true] :=
          quiet_cons rfl quiet_nil
        rcases installFiles_good env ("./bundles/" ++ name ++ "/demodata") (f :: fs) w with
          ⟨hok, hev⟩ | ⟨hok, hfail⟩
        · simp only [hok, if_true]
          refine Or.inl (finishInstall_clean env name _ _ ?_)
          exact quiet_append hd (quiet_cons rfl hev)
        · simp only [hok]
          refine Or.inr ?_
          have := rolledBack_of_failed env name
            (installFiles env ("./bundles/" ++ name ++ "/demodata") (f :: fs) w).world
            (done ++ [Event.readDemoDir ("./bundles/" ++ name ++ "/demodata") true]) _
            (quiet_append hd hq) hfail
          simpa using this

theorem installFromListing_outcome (env : Env σ ρ) (isInstallDemoData : Bool)
    (name basePath : String) (w : World σ ρ) :
    Clean (installFromListing env isInstallDemoData name basePath w).events ∨
      RolledBack env name (installFromListing env isInstallDemoData name basePath w).events := by
  unfold installFromListing
  have hclean : Clean [Event.readInstallDir basePath false] := by
    intro e he
    simp only [List.mem_singleton] at he
    subst he
    rfl
  cases hread : env.ReadDir basePath with
  | none => exact Or.inl hclean
  | some files =>
    cases files with
    | nil => exact Or.inl hclean
    | cons f fs =>
      dsimp only
      have hq : Quiet [Event.readInstallDir basePath true] := quiet_cons rfl quiet_nil
      rcases setupDBSchema_good env name w with ⟨hsok, hsev⟩ | ⟨hsok, hsfail⟩
      · simp only [hsok, if_true]
        rcases installFiles_good env basePath (f :: fs) (setupDBSchema env name w).world with
          ⟨hok, hev⟩ | ⟨hok, hfail⟩
        · simp only [hok, if_true]
          exact installDemoData_outcome env isInstallDemoData name _ _
            (quiet_cons rfl (quiet_append hsev hev))
        · simp only [hok]
          refine Or.inr ?_
          have := rolledBack_of_failed env name
            (installFiles env basePath (f :: fs) (setupDBSchema env name w).world).world
            ([Event.readInstallDir basePath true] ++ (setupDBSchema env name w).events) _
            (quiet_append hq hsev) hfail
          simpa using this
      · simp only [hsok]
        refine Or.inr ?_
        have := rolledBack_of_failed env name (setupDBSchema env name w).world
          [Event.readInstallDir basePath true] _ hq hsfail
        simpa using this

/-- The actions of `unInstallBundle` are quiet. -/
theorem unInstallBundle_quiet (env : Env σ ρ) (args : List String) (w : World σ ρ) :
    Quiet (unInstallBundle env args w).events := by
  unfold unInstallBundle
  cases args with
  | nil => exact quiet_cons rfl quiet_nil
  | cons name rest =>
    dsimp only
    by_cases h : (if env.noprompt = true then true else env.AskForConfirmation) = true
    · simp only [h, if_true, dbExec]
      exact quiet_cons rfl (quiet_cons rfl (quiet_cons rfl (quiet_cons rfl quiet_nil)))
    · simp only [h]
      exact quiet_cons rfl quiet_nil

theorem clean_prepend {q evs : List Event} (hq : Quiet q) (h : Clean evs) :
    Clean (q ++ evs) := by
  intro e he
  rcases List.mem_append.mp he with h1 | h1
  · exact quiet_not_failedStep (hq e h1)
  · exact h e h1

theorem rolledBack_prepend {env : Env σ ρ} {name : String} {q evs : List Event}
    (hq : Quiet q) (h : RolledBack env name evs) : RolledBack env name (q ++ evs) := by
  obtain ⟨p, f, ok, hev, hp, hf⟩ := h
  exact ⟨q ++ p, f, ok, by simp [hev], quiet_append hq hp, hf⟩

/-- Every run of `installBundle` has no failed step or is rolled back. -/
theorem installBundle_outcome (env : Env σ ρ) (flags : Flags) (name : String)
    (rest : List String) (w : World σ ρ) :
    Clean (installBundle env flags (name :: rest) w).events ∨
      RolledBack env name (installBundle env flags (name :: rest) w).events := by
  unfold installBundle
  dsimp only
  split
  · left
    intro e he
    simp only [List.mem_cons, List.mem_singleton, List.mem_nil_iff, or_false] at he
    rcases he with rfl | rfl <;> rfl
  · have hq0 : Quiet [Event.configSetup, Event.isDir ("./bundles/" ++ name ++ "/install") true] :=
      quiet_cons rfl (quiet_cons rfl quiet_nil)
    have hu : Quiet (if flags.isReinstall = true then unInstallBundle env (name :: rest) w
        else (⟨w, [], Ret.returned none⟩ : Result σ ρ)).events := by
      split
      · exact unInstallBundle_quiet env _ w
      · exact quiet_nil
    rcases installFromListing_outcome env flags.isInstallDemoData name
      ("./bundles/" ++ name ++ "/install")
      (if flags.isReinstall = true then unInstallBundle env (name :: rest) w
        else (⟨w, [], Ret.returned none⟩ : Result σ ρ)).world with h | h
    · exact Or.inl (clean_prepend (quiet_append hq0 hu) h)
    · exact Or.inr (rolledBack_prepend (quiet_append hq0 hu) h)

/-- In a list that ends with `f, d` after entries that are not bad, an entry that is bad
is `f` when `d` is not bad: what follows it is `d` alone. -/
theorem after_first_bad {α : Type} (bad : α → Bool) (d e : α) (hd : bad d = false)
    (he : bad e = true) (post : List α) (f : α) :
    ∀ (p pre : List α), (∀ x ∈ p, bad x = false) → pre ++ e :: post = p ++ [f, d] →
      post = [d] := by
  intro p
  induction p with
  | nil =>
    intro pre _ h
    cases pre with
    | nil =>
      simp only [List.nil_append, List.cons.injEq] at h
      exact h.2
    | cons x pre =>
      cases pre with
      | nil =>
        simp only [List.nil_append, List.cons_append, List.cons.injEq] at h
        rw [h.2.1, hd] at he
        cases he
      | cons y pre =>
        simp at h
  | cons a p ih =>
    intro pre hp h
    cases pre with
    | nil =>
      simp only [List.nil_append, List.cons_append, List.cons.injEq] at h
      have := hp a (List.mem_cons_self a p)
      rw [← h.1, he] at this
      cases this
    | cons x pre =>
      simp only [List.cons_append, List.cons.injEq] at h
      exact ih pre (fun x hx => hp x (List.mem_cons_of_mem a hx)) h.2

/-- A run ends in `LogFatal`, or its last action is the rewrite of the config file. -/
theorem dropSchemaAndFail_ended (env : Env σ ρ) (name : String) (w : World σ ρ)
    (done : List Event) : Ended (dropSchemaAndFail env name w done) :=
  Or.inl rfl

theorem finishInstall_ended (env : Env σ ρ) (name : String) (w : World σ ρ)
    (done : List Event) : Ended (finishInstall env name w done) :=
  Or.inr ⟨done ++ [Event.registryInstall name (env.InstallBundle w.reg name).2], by
    simp [finishInstall]⟩

theorem installDemoData_ended (env : Env σ ρ) (isInstallDemoData : Bool) (name : String)
    (w : World σ ρ) (done : List Event) :
    Ended (installDemoData env isInstallDemoData name w done) := by
  unfold installDemoData
  cases isInstallDemoData with
  | false => exact finishInstall_ended env name w done
  | true =>
    simp only [if_true]
    cases env.ReadDir ("./bundles/" ++ name ++ "/demodata") with
    | none => exact dropSchemaAndFail_ended env name w _
    | some files =>
      cases files with
      | nil => exact dropSchemaAndFail_ended env name w _
      | cons f fs =>
        dsimp only
        cases (installFiles env ("./bundles/" ++ name ++ "/demodata") (f :: fs) w).ok with
        | true => exact finishInstall_ended env name _ _
        | false => exact dropSchemaAndFail_ended env name _ _

theorem installFromListing_ended (env : Env σ ρ) (isInstallDemoData : Bool)
    (name basePath : String) (w : World σ ρ) :
    Ended (installFromListing env isInstallDemoData name basePath w) := by
  unfold installFromListing
  cases env.ReadDir basePath with
  | none => exact Or.inl rfl
  | some files =>
    cases files with
    | nil => exact Or.inl rfl
    | cons f fs =>
      dsimp only
      cases (setupDBSchema env name w).ok with
      | false => exact dropSchemaAndFail_ended env name _ _
      | true =>
        simp only [if_true]
        cases (installFiles env basePath (f :: fs) (setupDBSchema env name w).world).ok with
        | true => exact installDemoData_ended env isInstallDemoData name _ _
        | false => exact dropSchemaAndFail_ended env name _ _

theorem installBundle_ended (env : Env σ ρ) (flags : Flags) (name : String)
    (rest : List String) (w : World σ ρ) :
    Ended (installBundle env flags (name :: rest) w) := by
  unfold installBundle
  dsimp only
  cases (!(env.IsDir ("./bundles/" ++ name ++ "/install")).1 ||
      (env.IsDir ("./bundles/" ++ name ++ "/install")).2) with
  | true => exact Or.inl rfl
  | false =>
    rcases installFromListing_ended env flags.isInstallDemoData name
      ("./bundles/" ++ name ++ "/install")
      (if flags.isReinstall = true then unInstallBundle env (name :: rest) w
        else (⟨w, [], Ret.returned none⟩ : Result σ ρ)).world with h | ⟨l, hl⟩
    · exact Or.inl h
    · refine Or.inr ⟨[Event.configSetup, Event.isDir ("./bundles/" ++ name ++ "/install") true]
        ++ (if flags.isReinstall = true then unInstallBundle env (name :: rest) w
          else (⟨w, [], Ret.returned none⟩ : Result σ ρ)).events ++ l, ?_⟩
      simp [hl]

/-! ## C1: a failed installation step is followed by the drop of the schema, and nothing else -/

/-- C1: in every run of `installBundle` on a bundle `name`, whatever the directory listing,
the flags and the behaviour of database, filesystem and registry: when an installation step
fails (create schema, grant, set search path, the execution or the reading of an install or
demo-data file, the reading of a missing or empty demo-data directory), the only action after
the failed step is the drop-schema statement for `name`, which is therefore the last database
statement and no further file is executed, and the registry's `InstallBundle` is not called
in the run. -/
theorem installBundle_failed_step_drops_schema (env : Env σ ρ) (flags : Flags) (name : String)
    (rest : List String) (w : World σ ρ) (pre post : List Event) (e : Event)
    (hrun : (installBundle env flags (name :: rest) w).events = pre ++ e :: post)
    (hfail : e.failedStep = true) :
    (∃ ok, post = [Event.exec Step.dropSchema (env.SQLToDropSchema name) ok]) ∧
      (∀ x ∈ pre ++ e :: post, x.isRegistryInstall = false) ∧
      (installBundle env flags (name :: rest) w).ret = Ret.exited := by
  rcases installBundle_outcome env flags name rest w with hclean | hrolled
  · have := hclean e (by rw [hrun]; simp)
    rw [hfail] at this
    cases this
  · obtain ⟨p, f, ok, hev, hp, hf⟩ := hrolled
    rw [hrun] at hev
    have hpost := after_first_bad Event.failedStep
      (Event.exec Step.dropSchema (env.SQLToDropSchema name) ok) e rfl hfail post f p pre
      (fun x hx => quiet_not_failedStep (hp x hx)) hev
    refine ⟨⟨ok, hpost⟩, ?_, ?_⟩
    · intro x hx
      rw [hev] at hx
      simp only [List.mem_append, List.mem_cons, List.mem_singleton, List.mem_nil_iff,
        or_false] at hx
      rcases hx with h | rfl | rfl
      · exact quiet_not_registryInstall (hp x h)
      · exact failedStep_not_registryInstall hf
      · rfl
    · rcases installBundle_ended env flags name rest w with h | ⟨l, hl⟩
      · exact h
      · -- a run that returns ends with the rewrite of the config file, not with the drop
        exfalso
        rw [hrun, hpost] at hl
        have h1 := congrArg List.getLast? hl
        simp at h1

/-- C1, at the concrete installation whose file `b.sql` fails: the hypotheses hold there. -/
theorem installBundle_failed_step_drops_schema_witness :
    (installBundle (sampleEnv true true) ⟨false, false⟩ ["shop"] ⟨[], []⟩).events =
        [Event.configSetup, Event.isDir "./bundles/shop/install" true,
          Event.readInstallDir "./bundles/shop/install" true,
          Event.exec Step.createSchema "CREATE shop" true,
          Event.exec Step.grantPermissions "GRANT shop" true,
          Event.exec Step.setSearchPath "SET shop" true,
          Event.readFile "./bundles/shop/install/a.sql" true,
          Event.exec Step.bundleFile "TABLES" true,
          Event.readFile "./bundles/shop/install/b.sql" true] ++
        Event.exec Step.bundleFile "BAD" false ::
          [Event.exec Step.dropSchema "DROP shop" true] ∧
      (∃ ok, [Event.exec Step.dropSchema "DROP shop" true] =
        [Event.exec Step.dropSchema ((sampleEnv true true).SQLToDropSchema "shop") ok]) :=
  ⟨by decide,
    (installBundle_failed_step_drops_schema (sampleEnv true true) ⟨false, false⟩ "shop" []
      ⟨[], []⟩
      [Event.configSetup, Event.isDir "./bundles/shop/install" true,
        Event.readInstallDir "./bundles/shop/install" true,
        Event.exec Step.createSchema "CREATE shop" true,
        Event.exec Step.grantPermissions "GRANT shop" true,
        Event.exec Step.setSearchPath "SET shop" true,
        Event.readFile "./bundles/shop/install/a.sql" true,
        Event.exec Step.bundleFile "TABLES" true,
        Event.readFile "./bundles/shop/install/b.sql" true]
      [Event.exec Step.dropSchema "DROP shop" true]
      (Event.exec Step.bundleFile "BAD" false) (by decide) (by decide)).1⟩

/-! ## C2: without a usable install directory no schema is created -/

/-- The actions of `unInstallBundle` have no create-schema statement and no registry
install. -/
theorem unInstallBundle_no_install (env : Env σ ρ) (args : List String) (w : World σ ρ) :
    ∀ e ∈ (unInstallBundle env args w).events,
      e.isCreateSchema = false ∧ e.isRegistryInstall = false := by
  intro e he
  unfold unInstallBundle at he
  cases args with
  | nil =>
    simp only [List.mem_singleton] at he
    subst he
    exact ⟨rfl, rfl⟩
  | cons name rest =>
    by_cases h : (if env.noprompt = true then true else env.AskForConfirmation) = true
    · simp only [h, if_true, dbExec, List.mem_append, List.mem_cons, List.mem_singleton,
        List.mem_nil_iff, or_false] at he
      rcases he with (rfl | rfl) | rfl | rfl <;> exact ⟨rfl, rfl⟩
    · simp only [h, Bool.false_eq_true, if_false, List.mem_singleton] at he
      subst he
      exact ⟨rfl, rfl⟩

/-- C2: for every bundle name and every combination of the flags `demodata` and `reinstall`:
when the install directory of the bundle is missing or unreadable (`IsDir` reports that it
does not exist, or an error, or `ReadDir` fails) or has no entries, `installBundle` issues no
create-schema statement, does not call the registry's `InstallBundle`, and ends in
`LogFatal`. -/
theorem installBundle_unusable_directory_creates_nothing (env : Env σ ρ) (flags : Flags)
    (name : String) (rest : List String) (w : World σ ρ)
    (hdir : (env.IsDir (installPath name)).1 = false ∨ (env.IsDir (installPath name)).2 = true ∨
      env.ReadDir (installPath name) = none ∨ env.ReadDir (installPath name) = some []) :
    (∀ e ∈ (installBundle env flags (name :: rest) w).events,
        e.isCreateSchema = false ∧ e.isRegistryInstall = false) ∧
      (installBundle env flags (name :: rest) w).ret = Ret.exited := by
  have hun : ∀ e ∈ (if flags.isReinstall = true then unInstallBundle env (name :: rest) w
      else (⟨w, [], Ret.returned none⟩ : Result σ ρ)).events,
      e.isCreateSchema = false ∧ e.isRegistryInstall = false := by
    intro e he
    by_cases hre : flags.isReinstall = true
    · simp only [hre, if_true] at he
      exact unInstallBundle_no_install env _ w e he
    · simp [hre] at he
  unfold installPath at hdir
  unfold installBundle
  dsimp only
  by_cases hfound : (!(env.IsDir ("./bundles/" ++ name ++ "/install")).1 ||
      (env.IsDir ("./bundles/" ++ name ++ "/install")).2) = true
  · simp only [hfound, if_true]
    refine ⟨?_, rfl⟩
    intro e he
    simp only [List.mem_cons, List.mem_singleton, List.mem_nil_iff, or_false] at he
    rcases he with rfl | rfl <;> exact ⟨rfl, rfl⟩
  · have hlist : env.ReadDir ("./bundles/" ++ name ++ "/install") = none ∨
        env.ReadDir ("./bundles/" ++ name ++ "/install") = some [] := by
      rcases hdir with h | h | h | h
      · simp [h] at hfound
      · simp [h] at hfound
      · exact Or.inl h
      · exact Or.inr h
    simp only [hfound, Bool.false_eq_true, if_false]
    have hev : ∀ w1 : World σ ρ,
        installFromListing env flags.isInstallDemoData name
          ("./bundles/" ++ name ++ "/install") w1 =
        ⟨w1, [Event.readInstallDir ("./bundles/" ++ name ++ "/install") false], LogFatal⟩ := by
      intro w1
      unfold installFromListing
      rcases hlist with h | h <;> rw [h]
    rw [hev]
    refine ⟨?_, rfl⟩
    intro e he
    simp only [List.append_eq, List.mem_append, List.mem_cons, List.mem_singleton,
      List.mem_nil_iff, or_false] at he
    rcases he with ((rfl | rfl) | he) | rfl
    · exact ⟨rfl, rfl⟩
    · exact ⟨rfl, rfl⟩
    · exact hun e he
    · exact ⟨rfl, rfl⟩

/-- C2, at the concrete installation without install directory, reinstall and demo data
asked for: the hypothesis holds there. -/
theorem installBundle_unusable_directory_creates_nothing_witness :
    ((sampleEnv false false).IsDir (installPath "shop")).1 = false ∧
      ((∀ e ∈ (installBundle (sampleEnv false false) ⟨true, true⟩ ["shop"] sampleWorld).events,
          e.isCreateSchema = false ∧ e.isRegistryInstall = false) ∧
        (installBundle (sampleEnv false false) ⟨true, true⟩ ["shop"] sampleWorld).ret =
          Ret.exited) :=
  ⟨by decide,
    installBundle_unusable_directory_creates_nothing (sampleEnv false false) ⟨true, true⟩
      "shop" [] sampleWorld (Or.inl (by decide))⟩

/-! ## C3: reinstall against uninstall followed by install -/

/-- C3 does not hold when the install directory is missing: in the concrete installation
where bundle `shop` is installed and its install directory is absent, the uninstall is
confirmed (`noprompt`) and succeeds (the drop and the registry update succeed), yet
`installBundle` with `reinstall` stops at the existence check and leaves schema and registry
entry in place, whereas `unInstallBundle` followed by `installBundle` removes both. -/
theorem reinstall_differs_without_install_directory :
    (sampleEnv false false).noprompt = true ∧
      (unInstallBundle (sampleEnv false false) ["shop"] sampleWorld).events =
        [Event.configSetup, Event.exec Step.dropSchema "DROP shop" true,
          Event.registryUnInstall "shop" true, Event.configWrite] ∧
      (installBundle (sampleEnv false false) ⟨false, true⟩ ["shop"] sampleWorld).world.db =
        ["shop"] ∧
      (installBundle (sampleEnv false false) ⟨false, true⟩ ["shop"] sampleWorld).world.reg =
        ["shop"] ∧
      (installBundle (sampleEnv false false) ⟨false, false⟩ ["shop"]
        (unInstallBundle (sampleEnv false false) ["shop"] sampleWorld).world).world.db = [] ∧
      (installBundle (sampleEnv false false) ⟨false, false⟩ ["shop"]
        (unInstallBundle (sampleEnv false false) ["shop"] sampleWorld).world).world.reg = [] := by
  decide

/-- C3, amended: for every bundle name, every value of the `demodata` flag and every initial
state in which the install directory of the bundle exists (`IsDir` reports a directory and no
error), `installBundle` with `reinstall` set ends in the same database and registry state, and
ends the same way, as `unInstallBundle` followed by `installBundle` with `reinstall` unset;
this covers the empty directory and every answer and outcome of the uninstall. -/
theorem reinstall_eq_uninstall_then_install (env : Env σ ρ) (demodata : Bool) (name : String)
    (rest : List String) (w : World σ ρ)
    (hdir : env.IsDir (installPath name) = (true, false)) :
    (installBundle env ⟨demodata, true⟩ (name :: rest) w).world =
        (installBundle env ⟨demodata, false⟩ (name :: rest)
          (unInstallBundle env (name :: rest) w).world).world ∧
      (installBundle env ⟨demodata, true⟩ (name :: rest) w).ret =
        (installBundle env ⟨demodata, false⟩ (name :: rest)
          (unInstallBundle env (name :: rest) w).world).ret := by
  unfold installPath at hdir
  simp [installBundle, hdir]

/-- C3 amended, at the concrete installation with its install directory: the hypothesis holds
there, and the common final state has the schema and the registry entry. -/
theorem reinstall_eq_uninstall_then_install_witness :
    (sampleEnv true false).IsDir (installPath "shop") = (true, false) ∧
      (installBundle (sampleEnv true false) ⟨false, true⟩ ["shop"] sampleWorld).world.db =
        ["shop"] ∧
      (installBundle (sampleEnv true false) ⟨false, true⟩ ["shop"] sampleWorld).world =
        (installBundle (sampleEnv true false) ⟨false, false⟩ ["shop"]
          (unInstallBundle (sampleEnv true false) ["shop"] sampleWorld).world).world :=
  ⟨by decide, by decide,
    (reinstall_eq_uninstall_then_install (sampleEnv true false) false "shop" [] sampleWorld
      (by decide)).1⟩

/-! ## C4: the effects of `unInstallBundle` -/

/-- C4: for every bundle name given to `unInstallBundle`: when the confirmation is neither
skipped by `noprompt` nor given at the prompt, the database and the registry are left as they
were and no database statement and no registry operation is among the actions; when it is
confirmed, the actions are exactly: the config setup, one drop-schema statement for the bundle
name, the registry's `UnInstallBundle` for that name, the rewrite of the config file, in this
order; in both cases `nil` is returned, whether or not the drop or the registry update
failed. -/
theorem unInstallBundle_effects (env : Env σ ρ) (name : String) (rest : List String)
    (w : World σ ρ) :
    (env.noprompt = false ∧ env.AskForConfirmation = false →
        (unInstallBundle env (name :: rest) w).world = w ∧
        ∀ e ∈ (unInstallBundle env (name :: rest) w).events,
          e.isStatement = false ∧ e.isRegistryUnInstall = false ∧
            e.isRegistryInstall = false) ∧
      (env.noprompt = true ∨ env.AskForConfirmation = true →
        (unInstallBundle env (name :: rest) w).events =
          [Event.configSetup,
            Event.exec Step.dropSchema (env.SQLToDropSchema name)
              (env.Exec w.db (env.SQLToDropSchema name)).2,
            Event.registryUnInstall name (env.UnInstallBundle w.reg name).2,
            Event.configWrite] ∧
        (unInstallBundle env (name :: rest) w).world =
          ⟨(env.Exec w.db (env.SQLToDropSchema name)).1,
            (env.UnInstallBundle w.reg name).1⟩) ∧
      (unInstallBundle env (name :: rest) w).ret = Ret.returned none := by
  refine ⟨?_, ?_, ?_⟩
  · rintro ⟨h1, h2⟩
    simp [unInstallBundle, h1, h2, Event.isStatement, Event.isRegistryUnInstall,
      Event.isRegistryInstall]
  · intro h
    rcases h with h | h
    · simp [unInstallBundle, h, dbExec]
    · cases hn : env.noprompt <;> simp [unInstallBundle, h, hn, dbExec]
  · unfold unInstallBundle
    cases env.noprompt <;> cases env.AskForConfirmation <;> rfl

/-- C4, at the concrete installation: the prompt declined, and the confirmation skipped. -/
theorem unInstallBundle_effects_witness :
    ((unInstallBundle sampleEnvDeclined ["shop"] sampleWorld).world = sampleWorld ∧
        ∀ e ∈ (unInstallBundle sampleEnvDeclined ["shop"] sampleWorld).events,
          e.isStatement = false ∧ e.isRegistryUnInstall = false ∧
            e.isRegistryInstall = false) ∧
      (unInstallBundle (sampleEnv true false) ["shop"] sampleWorld).events =
        [Event.configSetup, Event.exec Step.dropSchema "DROP shop" true,
          Event.registryUnInstall "shop" true, Event.configWrite] :=
  ⟨(unInstallBundle_effects sampleEnvDeclined "shop" [] sampleWorld).1 ⟨rfl, rfl⟩,
    ((unInstallBundle_effects (sampleEnv true false) "shop" [] sampleWorld).2.1
      (Or.inl rfl)).1⟩

end Cmds

/-! # Theorems about the request handlers -/

namespace Core

variable {σ Q : Type}

/-- The text of a no-rows error contains `sql`. -/
theorem isNoRows_contains_sql (err : GoError) (h : err.isNoRows = true) :
    stringsContains err.Error "sql" = true := by
  cases err with
  | pq c m => simp [GoError.isNoRows] at h
  | errNoRows => decide
  | eof => simp [GoError.isNoRows] at h
  | other t =>
    simp only [GoError.isNoRows] at h
    have hp : ['s', 'q', 'l'] <+: t.data := by
      have h1 : "sql: Scan error".data <+: t.data := List.isPrefixOf_iff_prefix.mp h
      have h2 : ['s', 'q', 'l'] <+: "sql: Scan error".data := ⟨": Scan error".data, rfl⟩
      exact h2.trans h1
    have hpre : List.isPrefixOf ['s', 'q', 'l'] t.data = true :=
      List.isPrefixOf_iff_prefix.mpr hp
    show containsChars t.data ['s', 'q', 'l'] = true
    cases hd : t.data with
    | nil => rw [hd] at hpre; simp at hpre
    | cons c cs =>
      rw [hd] at hpre
      simp only [containsChars, hpre, Bool.true_or]

/-! ## C5: a list of no rows is the empty array -/

/-- C5: for every `ShowList` request with role, user id, schema and table on the context: when
the single-row scan fails with the no-rows condition, `ShowList` writes the body `[]` with the
JSON content type and leaves the status at its default 200; it renders no `ResponseError`, so
no `NotFound`. -/
theorem ShowList_no_rows_writes_empty_array (q : Sql Q) (db : DB σ) (r : Request) (s s1 : σ)
    (role userID schema table : String) (err : GoError)
    (hrole : r.ctx.role = some role) (huser : r.ctx.userID = some userID)
    (hschema : r.ctx.schema = some schema) (htable : r.ctx.table = some table)
    (hscan : db.QueryRowScan s
      (listSQLString q role userID schema table (r.ctx.queries.getD [])) =
        (s1, Except.error err))
    (hnorows : err.isNoRows = true) :
    (ShowList q db r s).response = Response.write "application/json; charset=utf-8" "[]" ∧
      (ShowList q db r s).response.status = some 200 ∧
      ∀ status payload, (ShowList q db r s).response ≠ Response.errorJSON status payload := by
  have hresp : (ShowList q db r s).response =
      Response.write "application/json; charset=utf-8" "[]" := by
    simp [ShowList, AllOK, hrole, huser, hschema, htable, hscan,
      isNoRows_contains_sql err hnorows, jsonContentType]
  rw [hresp]
  exact ⟨rfl, rfl, fun _ _ h => by cases h⟩

/-- C5, at the concrete database with an empty table: the hypotheses hold there. -/
theorem ShowList_no_rows_writes_empty_array_witness :
    (ShowList sampleSql sampleDB ⟨sampleContext, none⟩ []).response =
      Response.write "application/json; charset=utf-8" "[]" :=
  (ShowList_no_rows_writes_empty_array sampleSql sampleDB ⟨sampleContext, none⟩ [] []
    "web" "u1" "shop" "orders_view" (GoError.other "sql: Scan error on column index 0")
    rfl rfl rfl rfl rfl (by decide)).1

/-! ## C6: `ShowSingle` on a record that is absent -/

/-- A no-rows error is not a driver error: the assertion `err.(*pq.Error)` fails on it. -/
theorem isNoRows_not_pqError (err : GoError) (h : err.isNoRows = true) :
    err.asPqError = none := by
  cases err <;> simp [GoError.isNoRows] at h <;> rfl

/-- For every `ShowSingle` request with the five values on the context: when the single-row
scan fails with the no-rows condition, the handler panics in `err.(*pq.Error)` and renders
nothing. -/
theorem ShowSingle_no_rows_panics (q : Sql Q) (db : DB σ) (r : Request) (s s1 : σ)
    (role userID schema table record : String) (err : GoError)
    (hrole : r.ctx.role = some role) (huser : r.ctx.userID = some userID)
    (hschema : r.ctx.schema = some schema) (htable : r.ctx.table = some table)
    (hrecord : r.ctx.record = some record)
    (hscan : db.QueryRowScan s (singleSQLString q role userID schema table record) =
      (s1, Except.error err))
    (hnorows : err.isNoRows = true) :
    (ShowSingle q db r s).response = Response.panic := by
  simp [ShowSingle, AllOK, hrole, huser, hschema, htable, hrecord, hscan, renderDBError,
    isNoRows_not_pqError err hnorows]

/-- C6 fails on the code: at the concrete database with an empty table, the request for
record `7` meets `sql.ErrNoRows`, and `ShowSingle` does not answer 404 with a `ResponseError`
whose record is `7`: it panics and has no status. -/
theorem ShowSingle_absent_record_panics :
    sampleDB.QueryRowScan [] (singleSQLString sampleSql "web" "u1" "shop" "orders_view" "7") =
        ([], Except.error GoError.errNoRows) ∧
      (ShowSingle sampleSql sampleDB ⟨sampleContext, none⟩ []).response = Response.panic ∧
      (ShowSingle sampleSql sampleDB ⟨sampleContext, none⟩ []).response.status = none := by
  refine ⟨rfl, ?_, ?_⟩
  · exact ShowSingle_no_rows_panics sampleSql sampleDB ⟨sampleContext, none⟩ [] [] "web" "u1"
      "shop" "orders_view" "7" GoError.errNoRows rfl rfl rfl rfl rfl rfl rfl
  · rw [ShowSingle_no_rows_panics sampleSql sampleDB ⟨sampleContext, none⟩ [] [] "web" "u1"
      "shop" "orders_view" "7" GoError.errNoRows rfl rfl rfl rfl rfl rfl rfl]
    rfl

/-! ## C7: `UpdateRecord` on a record that is absent -/

/-- C7: for every `UpdateRecord` request with the five values on the context and a body that
decodes to a non-empty mapping: when the scan of the returned row fails with the no-rows
condition, the response is status 404 with the `ResponseError` of status 404, empty database
code, message "No record with that id", the schema, the base table and the requested record
identifier. -/
theorem UpdateRecord_no_rows_not_found (q : Sql Q) (db : DB σ) (r : Request) (s s1 : σ)
    (role userID schema table record : String) (d : Decoded) (err : GoError)
    (hrole : r.ctx.role = some role) (huser : r.ctx.userID = some userID)
    (hschema : r.ctx.schema = some schema) (htable : r.ctx.table = some table)
    (hrecord : r.ctx.record = some record)
    (hbody : r.Body = some d) (hnonempty : d.requestBody ≠ [])
    (hscan : db.QueryRowScan s
      (updateSQLString q role userID schema (baseTable table) record d.requestBody) =
        (s1, Except.error err))
    (hnorows : err.isNoRows = true) :
    (UpdateRecord q db r s).response =
        Response.errorJSON 404
          ⟨404, "", "No record with that id", schema, baseTable table, record⟩ ∧
      (UpdateRecord q db r s).response.status = some 404 := by
  have hresp : (UpdateRecord q db r s).response =
      Response.errorJSON 404
        ⟨404, "", "No record with that id", schema, baseTable table, record⟩ := by
    simp [UpdateRecord, AllOK, hrole, huser, hschema, htable, hrecord, hbody, hnonempty, hscan,
      isNoRows_contains_sql err hnorows]
  rw [hresp]
  exact ⟨rfl, rfl⟩

/-- C7, at the concrete database with an empty table and the body `{"total": 3}`: the
hypotheses hold there. -/
theorem UpdateRecord_no_rows_not_found_witness :
    (UpdateRecord sampleSql sampleDB ⟨sampleContext, some ⟨[("total", "3")], none⟩⟩ []).response =
      Response.errorJSON 404 ⟨404, "", "No record with that id", "shop", "orders", "7"⟩ :=
  (UpdateRecord_no_rows_not_found sampleSql sampleDB
    ⟨sampleContext, some ⟨[("total", "3")], none⟩⟩ [] [] "web" "u1" "shop" "orders_view" "7"
    ⟨[("total", "3")], none⟩ GoError.errNoRows rfl rfl rfl rfl rfl rfl (by decide) rfl
    (by decide)).1

/-! ## C8: `DeleteRecord` by the count of affected rows -/

/-- The response of `DeleteRecord` when the statement executes without error. -/
theorem DeleteRecord_executed (q : Sql Q) (db : DB σ) (r : Request) (s s1 : σ)
    (role userID schema table record : String) (n : Int)
    (hrole : r.ctx.role = some role) (huser : r.ctx.userID = some userID)
    (hschema : r.ctx.schema = some schema) (htable : r.ctx.table = some table)
    (hrecord : r.ctx.record = some record)
    (hexec : db.Exec s (deleteSQLString q role userID schema (baseTable table) record) =
      (s1, Except.ok n)) :
    DeleteRecord q db r s =
      ⟨s1, [deleteSQLString q role userID schema (baseTable table) record],
        if n = 0 then
          Response.errorJSON 404
            ⟨404, "", "No record with that id", schema, baseTable table, record⟩
        else Response.noContent⟩ := by
  by_cases hn : n = 0
  · simp [DeleteRecord, AllOK, hrole, huser, hschema, htable, hrecord, hexec, hn]
  · simp [DeleteRecord, AllOK, hrole, huser, hschema, htable, hrecord, hexec, hn]

/-- C8: for every `DeleteRecord` request with the five values on the context whose statement
executes without error: a count of zero affected rows gives status 404 with the
`ResponseError` holding the schema, the base table and the record, a nonzero count gives
no-content without body. Consequently, over every database in which the delete statement
affects a row exactly when the record is present and leaves the record absent, the first
delete of a present record answers no-content and the same delete repeated answers 404. -/
theorem DeleteRecord_not_found_or_no_content (q : Sql Q) (db : DB σ) (r : Request) (s : σ)
    (role userID schema table record : String)
    (hrole : r.ctx.role = some role) (huser : r.ctx.userID = some userID)
    (hschema : r.ctx.schema = some schema) (htable : r.ctx.table = some table)
    (hrecord : r.ctx.record = some record) :
    (∀ s1 n, db.Exec s (deleteSQLString q role userID schema (baseTable table) record) =
        (s1, Except.ok n) →
      (n = 0 → (DeleteRecord q db r s).response =
        Response.errorJSON 404
          ⟨404, "", "No record with that id", schema, baseTable table, record⟩) ∧
      (n ≠ 0 → (DeleteRecord q db r s).response = Response.noContent)) ∧
    (∀ present : σ → Bool,
      (∀ t, ∃ t1 n, db.Exec t (deleteSQLString q role userID schema (baseTable table) record) =
          (t1, Except.ok n) ∧ (n ≠ 0 ↔ present t = true) ∧ present t1 = false) →
      present s = true →
      (DeleteRecord q db r s).response = Response.noContent ∧
        (DeleteRecord q db r (DeleteRecord q db r s).db).response =
          Response.errorJSON 404
            ⟨404, "", "No record with that id", schema, baseTable table, record⟩) := by
  constructor
  · intro s1 n hexec
    rw [DeleteRecord_executed q db r s s1 role userID schema table record n hrole huser hschema
      htable hrecord hexec]
    constructor
    · intro hn
      simp [hn]
    · intro hn
      simp [hn]
  · intro present hmodel hpresent
    obtain ⟨t1, n, hexec, hn, ht1⟩ := hmodel s
    have hfirst := DeleteRecord_executed q db r s t1 role userID schema table record n hrole
      huser hschema htable hrecord hexec
    have hn0 : n ≠ 0 := hn.mpr hpresent
    obtain ⟨t2, m, hexec2, hm, _⟩ := hmodel t1
    have hm0 : m = 0 := by
      by_contra hne
      have := hm.mp hne
      rw [ht1] at this
      cases this
    have hsecond := DeleteRecord_executed q db r t1 t2 role userID schema table record m hrole
      huser hschema htable hrecord hexec2
    rw [hfirst]
    simp only [hn0, if_false]
    rw [hsecond]
    simp [hm0]

/-- The concrete database deletes the records it counts. -/
theorem sampleDB_delete (t : List String) :
    ∃ t1 n, sampleDB.Exec t (deleteSQLString sampleSql "web" "u1" "shop" "orders" "7") =
        (t1, Except.ok n) ∧ (n ≠ 0 ↔ decide ("7" ∈ t) = true) ∧ decide ("7" ∈ t1) = false := by
  refine ⟨t.filter (fun x => x ≠ "7"), ((t.filter (fun x => x = "7")).length : Int), rfl, ?_, ?_⟩
  · simp [List.filter_eq_nil_iff]
  · simp [List.mem_filter]

/-- C8, at the concrete database holding record `7`: the hypotheses hold there. -/
theorem DeleteRecord_not_found_or_no_content_witness :
    (DeleteRecord sampleSql sampleDB ⟨sampleContext, none⟩ ["7", "8"]).response =
        Response.noContent ∧
      (DeleteRecord sampleSql sampleDB ⟨sampleContext, none⟩
        (DeleteRecord sampleSql sampleDB ⟨sampleContext, none⟩ ["7", "8"]).db).response =
        Response.errorJSON 404 ⟨404, "", "No record with that id", "shop", baseTable "orders_view",
          "7"⟩ :=
  (DeleteRecord_not_found_or_no_content sampleSql sampleDB ⟨sampleContext, none⟩ ["7", "8"]
    "web" "u1" "shop" "orders_view" "7" rfl rfl rfl rfl rfl).2
    (fun t => decide ("7" ∈ t)) (fun t => sampleDB_delete t) (by decide)

/-! ## C9: the two statements of `InsertRecord` -/

/-- C9: for every `InsertRecord` request with role, user id, schema and table on the context:
a missing body, an empty body (the decode ends with `io.EOF`) and a body that decodes to an
empty mapping all execute the same statement, the all-defaults insert template for the schema
and the base table; every other body that decodes without error executes the explicit
column/value insert; both templates are wrapped in the same single-JSON-object shaping, role
and user id; and when the statement succeeds the JSON it returns is written unchanged as the
body, with the JSON content type. -/
theorem InsertRecord_defaults_or_values (q : Sql Q) (db : DB σ) (r : Request) (s : σ)
    (role userID schema table : String)
    (hrole : r.ctx.role = some role) (huser : r.ctx.userID = some userID)
    (hschema : r.ctx.schema = some schema) (htable : r.ctx.table = some table) :
    (r.Body = none ∨ (∃ rb, r.Body = some ⟨rb, some GoError.eof⟩) ∨ r.Body = some ⟨[], none⟩ →
      (InsertRecord q db r s).executed =
        [q.ToSQLString (q.SetUserID (q.SetQueryRole (q.RequestSingleResultAsJSONObject
          (q.SqlQuery (q.SQLToInsertAllDefaultsReturningJSON schema (baseTable table)
            (baseTable table)))) role) userID)]) ∧
    (∀ rb, rb ≠ [] → r.Body = some ⟨rb, none⟩ →
      (InsertRecord q db r s).executed =
        [q.ToSQLString (q.SetUserID (q.SetQueryRole (q.RequestSingleResultAsJSONObject
          (q.SqlQuery (q.SQLToInsertReturningJSON schema (baseTable table)
            (q.MapToValsAndCols rb).1 (q.MapToValsAndCols rb).2 (baseTable table))))
          role) userID)]) ∧
    (∀ sqlString s1 dbResponse, (InsertRecord q db r s).executed = [sqlString] →
      db.QueryRowScan s sqlString = (s1, Except.ok dbResponse) →
      (InsertRecord q db r s).response =
          Response.write "application/json; charset=utf-8" dbResponse ∧
        (InsertRecord q db r s).db = s1) := by
  have hrun : ∀ sqlString, (insertAndRespond q db sqlString schema (baseTable table) s).executed =
      [sqlString] := by
    intro sqlString
    unfold insertAndRespond
    split <;> rfl
  have hok : ∀ sqlString s1 dbResponse,
      db.QueryRowScan s sqlString = (s1, Except.ok dbResponse) →
      insertAndRespond q db sqlString schema (baseTable table) s =
        ⟨s1, [sqlString], Response.write "application/json; charset=utf-8" dbResponse⟩ := by
    intro sqlString s1 dbResponse h
    simp [insertAndRespond, h, jsonContentType]
  -- the handler, when the decode error is `nil` or `io.EOF`
  have hgo : r.Body.bind Decoded.bodyDecodeError = none ∨
      r.Body.bind Decoded.bodyDecodeError = some GoError.eof →
      InsertRecord q db r s = insertAndRespond q db
        (insertSQLString q role userID schema (baseTable table) r.Body) schema
        (baseTable table) s := by
    intro h
    rcases h with h | h <;>
      simp [InsertRecord, AllOK, hrole, huser, hschema, htable, h]
  refine ⟨?_, ?_, ?_⟩
  · intro hbody
    rcases hbody with h | ⟨rb, h⟩ | h
    · rw [hgo (Or.inl (by simp [h])), hrun]
      simp [insertSQLString, insertDefaultsSQLString, h]
    · rw [hgo (Or.inr (by simp [h])), hrun]
      simp [insertSQLString, insertDefaultsSQLString, h]
    · rw [hgo (Or.inl (by simp [h])), hrun]
      simp [insertSQLString, insertDefaultsSQLString, h]
  · intro rb hrb h
    rw [hgo (Or.inl (by simp [h])), hrun]
    simp [insertSQLString, insertValuesSQLString, h, hrb]
  · intro sqlString s1 dbResponse hexe hscan
    -- a run that executed a statement went through `insertAndRespond`
    have hcases : r.Body.bind Decoded.bodyDecodeError = none ∨
        r.Body.bind Decoded.bodyDecodeError = some GoError.eof ∨
        ∃ err, r.Body.bind Decoded.bodyDecodeError = some err ∧ err ≠ GoError.eof := by
      cases hb : r.Body.bind Decoded.bodyDecodeError with
      | none => exact Or.inl rfl
      | some err =>
        by_cases he : err = GoError.eof
        · exact Or.inr (Or.inl (by rw [he]))
        · exact Or.inr (Or.inr ⟨err, rfl, he⟩)
    rcases hcases with h | h | ⟨err, h, hne⟩
    · have hI := hgo (Or.inl h)
      rw [hI, hrun] at hexe
      rw [hI]
      simp only [List.cons.injEq, and_true] at hexe
      rw [hexe, hok sqlString s1 dbResponse hscan]
      exact ⟨rfl, rfl⟩
    · have hI := hgo (Or.inr h)
      rw [hI, hrun] at hexe
      rw [hI]
      simp only [List.cons.injEq, and_true] at hexe
      rw [hexe, hok sqlString s1 dbResponse hscan]
      exact ⟨rfl, rfl⟩
    · exfalso
      simp [InsertRecord, AllOK, hrole, huser, hschema, htable, h, hne] at hexe

/-- C9, at the concrete database: a missing body and the body `{"total": 3}`. -/
theorem InsertRecord_defaults_or_values_witness :
    (InsertRecord sampleSql sampleDB ⟨sampleContext, none⟩ []).executed = ["INSERT"] ∧
      (InsertRecord sampleSql sampleDB ⟨sampleContext, some ⟨[("total", "3")], none⟩⟩
        []).executed = ["INSERT VALUES"] ∧
      (InsertRecord sampleSql sampleDB ⟨sampleContext, none⟩ []).response =
        Response.write "application/json; charset=utf-8" "row" :=
  ⟨(InsertRecord_defaults_or_values sampleSql sampleDB ⟨sampleContext, none⟩ [] "web" "u1"
      "shop" "orders_view" rfl rfl rfl rfl).1 (Or.inl rfl),
    (InsertRecord_defaults_or_values sampleSql sampleDB
      ⟨sampleContext, some ⟨[("total", "3")], none⟩⟩ [] "web" "u1" "shop" "orders_view"
      rfl rfl rfl rfl).2.1 [("total", "3")] (by decide) rfl,
    ((InsertRecord_defaults_or_values sampleSql sampleDB ⟨sampleContext, none⟩ [] "web" "u1"
      "shop" "orders_view" rfl rfl rfl rfl).2.2 "INSERT" ["new"] "row" rfl rfl).1⟩

/-! ## C10: `UpdateRecord` without column data -/

/-- C10 does not hold as stated: at the concrete database, the missing body and the empty body
are both refused with status 400, but not with the same payload: the message is
"Invalid or absent request body" for the missing body and "EOF", the text of the decode error,
for the empty body. -/
theorem UpdateRecord_empty_body_payload_differs :
    (UpdateRecord sampleSql sampleDB ⟨sampleContext, none⟩ ["7"]).response =
        Response.errorJSON 400
          ⟨400, "", "Invalid or absent request body", "shop", "orders", "7"⟩ ∧
      (UpdateRecord sampleSql sampleDB ⟨sampleContext, some ⟨[], some GoError.eof⟩⟩
        ["7"]).response =
        Response.errorJSON 400 ⟨400, "", "EOF", "shop", "orders", "7"⟩ ∧
      (UpdateRecord sampleSql sampleDB ⟨sampleContext, none⟩ ["7"]).response ≠
        (UpdateRecord sampleSql sampleDB ⟨sampleContext, some ⟨[], some GoError.eof⟩⟩
          ["7"]).response := by
  decide

/-- C10, amended: for every `UpdateRecord` request with the five values on the context: a
missing body, an empty body (the decode ends with `io.EOF` and leaves the mapping empty) and a
body that decodes to an empty mapping are each refused with status 400 and a `ResponseError`
of status 400, empty database code, the schema, the base table and the record; no statement
is executed and the database is left as it was; the message is
"Invalid or absent request body" for the missing body and for the empty mapping, and the text
of the decode error, "EOF", for the empty body. -/
theorem UpdateRecord_no_column_data_rejected (q : Sql Q) (db : DB σ) (r : Request) (s : σ)
    (role userID schema table record : String)
    (hrole : r.ctx.role = some role) (huser : r.ctx.userID = some userID)
    (hschema : r.ctx.schema = some schema) (htable : r.ctx.table = some table)
    (hrecord : r.ctx.record = some record) :
    (r.Body = none →
      UpdateRecord q db r s = ⟨s, [], Response.errorJSON 400
        ⟨400, "", "Invalid or absent request body", schema, baseTable table, record⟩⟩) ∧
    (r.Body = some ⟨[], some GoError.eof⟩ →
      UpdateRecord q db r s = ⟨s, [], Response.errorJSON 400
        ⟨400, "", "EOF", schema, baseTable table, record⟩⟩) ∧
    (r.Body = some ⟨[], none⟩ →
      UpdateRecord q db r s = ⟨s, [], Response.errorJSON 400
        ⟨400, "", "Invalid or absent request body", schema, baseTable table, record⟩⟩) := by
  refine ⟨?_, ?_, ?_⟩ <;> intro h <;>
    simp [UpdateRecord, AllOK, hrole, huser, hschema, htable, hrecord, h, GoError.Error]

/-- C10 amended, at the concrete database: the three bodies. -/
theorem UpdateRecord_no_column_data_rejected_witness :
    (UpdateRecord sampleSql sampleDB ⟨sampleContext, none⟩ ["7"]).executed = [] ∧
      (UpdateRecord sampleSql sampleDB ⟨sampleContext, some ⟨[], some GoError.eof⟩⟩
        ["7"]).response.status = some 400 ∧
      (UpdateRecord sampleSql sampleDB ⟨sampleContext, some ⟨[], none⟩⟩ ["7"]).response =
        Response.errorJSON 400
          ⟨400, "", "Invalid or absent request body", "shop", "orders", "7"⟩ :=
  ⟨by
      rw [(UpdateRecord_no_column_data_rejected sampleSql sampleDB ⟨sampleContext, none⟩ ["7"]
        "web" "u1" "shop" "orders_view" "7" rfl rfl rfl rfl rfl).1 rfl],
    by
      rw [(UpdateRecord_no_column_data_rejected sampleSql sampleDB
        ⟨sampleContext, some ⟨[], some GoError.eof⟩⟩ ["7"]
        "web" "u1" "shop" "orders_view" "7" rfl rfl rfl rfl rfl).2.1 rfl]
      rfl,
    by
      rw [(UpdateRecord_no_column_data_rejected sampleSql sampleDB
        ⟨sampleContext, some ⟨[], none⟩⟩ ["7"]
        "web" "u1" "shop" "orders_view" "7" rfl rfl rfl rfl rfl).2.2 rfl]
      rfl⟩

/-! ## C11: a body that does not decode -/

/-- For every `InsertRecord` request with the required values on the context: when the
decoding of the body fails with an error other than `io.EOF`, the answer is status 400 with a
`ResponseError` whose message is the text of the decode error, and no statement is
executed. -/
theorem InsertRecord_decode_error_rejected (q : Sql Q) (db : DB σ) (r : Request) (s : σ)
    (role userID schema table : String) (d : Decoded) (err : GoError)
    (hrole : r.ctx.role = some role) (huser : r.ctx.userID = some userID)
    (hschema : r.ctx.schema = some schema) (htable : r.ctx.table = some table)
    (hbody : r.Body = some d) (herr : d.bodyDecodeError = some err)
    (hne : err ≠ GoError.eof) :
    InsertRecord q db r s =
      ⟨s, [], Response.errorJSON 400 ⟨400, "", err.Error, schema, baseTable table, ""⟩⟩ := by
  simp [InsertRecord, AllOK, hrole, huser, hschema, htable, hbody, herr, hne]

/-- For every `UpdateRecord` request with the required values on the context: a decode error
that leaves the mapping empty is answered with status 400 and the text of the error, and no
statement is executed. -/
theorem UpdateRecord_decode_error_empty_mapping_rejected (q : Sql Q) (db : DB σ) (r : Request)
    (s : σ) (role userID schema table record : String) (d : Decoded) (err : GoError)
    (hrole : r.ctx.role = some role) (huser : r.ctx.userID = some userID)
    (hschema : r.ctx.schema = some schema) (htable : r.ctx.table = some table)
    (hrecord : r.ctx.record = some record)
    (hbody : r.Body = some d) (herr : d.bodyDecodeError = some err)
    (hempty : d.requestBody = []) :
    UpdateRecord q db r s =
      ⟨s, [], Response.errorJSON 400 ⟨400, "", err.Error, schema, baseTable table, record⟩⟩ := by
  simp [UpdateRecord, AllOK, hrole, huser, hschema, htable, hrecord, hbody, herr, hempty]

/-- C11 fails on the code for `UpdateRecord`: on the body `{"a":1,"b":1e999}` the decoding
fails with an error that is not `io.EOF` (the number does not fit) after it has put entries
into the mapping; the check `len(requestBody) == 0` does not catch this decode error, so
`UpdateRecord` executes the update and answers with the row and status 200, not with status
400 and the text of the error. `InsertRecord`, which tests the decode error itself, answers
the same body with status 400 and the text of the error and executes nothing. -/
theorem UpdateRecord_decode_error_with_entries_executes :
    (UpdateRecord sampleSql sampleDB
        ⟨sampleContext, some ⟨[("a", "1"), ("b", "null")],
          some (GoError.other
            "json: cannot unmarshal number 1e999 into Go value of type float64")⟩⟩
        ["7"]).executed = ["UPDATE 7"] ∧
      (UpdateRecord sampleSql sampleDB
        ⟨sampleContext, some ⟨[("a", "1"), ("b", "null")],
          some (GoError.other
            "json: cannot unmarshal number 1e999 into Go value of type float64")⟩⟩
        ["7"]).response = Response.write "application/json; charset=utf-8" "row" ∧
      (UpdateRecord sampleSql sampleDB
        ⟨sampleContext, some ⟨[("a", "1"), ("b", "null")],
          some (GoError.other
            "json: cannot unmarshal number 1e999 into Go value of type float64")⟩⟩
        ["7"]).response.status = some 200 ∧
      InsertRecord sampleSql sampleDB
        ⟨sampleContext, some ⟨[("a", "1"), ("b", "null")],
          some (GoError.other
            "json: cannot unmarshal number 1e999 into Go value of type float64")⟩⟩
        ["7"] =
        ⟨["7"], [], Response.errorJSON 400
          ⟨400, "", "json: cannot unmarshal number 1e999 into Go value of type float64",
            "shop", "orders", ""⟩⟩ := by
  refine ⟨by decide, by decide, by decide, ?_⟩
  exact InsertRecord_decode_error_rejected sampleSql sampleDB
    ⟨sampleContext, some ⟨[("a", "1"), ("b", "null")],
      some (GoError.other
        "json: cannot unmarshal number 1e999 into Go value of type float64")⟩⟩
    ["7"] "web" "u1" "shop" "orders_view"
    ⟨[("a", "1"), ("b", "null")],
      some (GoError.other "json: cannot unmarshal number 1e999 into Go value of type float64")⟩
    (GoError.other "json: cannot unmarshal number 1e999 into Go value of type float64")
    rfl rfl rfl rfl rfl rfl (by decide)

/-! ## C12: the table the write handlers use -/

/-- The first piece of a split is the part before the first separator. -/
theorem splitChars_head (sep : Char) (l : List Char) :
    (splitChars sep l).head? = some (l.takeWhile (fun c => c ≠ sep)) := by
  induction l with
  | nil => rfl
  | cons c cs ih =>
    unfold splitChars
    by_cases hc : c = sep
    · simp [hc, List.takeWhile]
    · simp only [hc, if_false]
      cases hsplit : splitChars sep cs with
      | nil => rw [hsplit] at ih; simp at ih
      | cons p ps =>
        rw [hsplit] at ih
        simp only [List.head?_cons, Option.some.injEq] at ih
        simp [List.takeWhile, hc, ih]

/-- The table of the write handlers, `strings.Split(table, "_")[0]`, is the part of the name
before its first underscore. -/
theorem baseTable_eq_beforeFirstUnderscore (table : String) :
    baseTable table = beforeFirstUnderscore table := by
  unfold baseTable stringsSplit beforeFirstUnderscore
  have h := splitChars_head '_' table.data
  cases hsplit : splitChars '_' table.data with
  | nil => rw [hsplit] at h; simp at h
  | cons p ps =>
    rw [hsplit] at h
    simp only [List.head?_cons, Option.some.injEq] at h
    simp [h]

/-- The statement `ShowList` executes. -/
theorem ShowList_executed (q : Sql Q) (db : DB σ) (r : Request) (s : σ)
    (role userID schema table : String)
    (hrole : r.ctx.role = some role) (huser : r.ctx.userID = some userID)
    (hschema : r.ctx.schema = some schema) (htable : r.ctx.table = some table) :
    (ShowList q db r s).executed =
      [listSQLString q role userID schema table (r.ctx.queries.getD [])] := by
  simp only [ShowList, AllOK, hrole, huser, hschema, htable, Option.isSome_some, List.all_cons,
    List.all_nil, id, Bool.and_self, Bool.not_true, Bool.false_eq_true, if_false,
    Option.getD_some]
  rcases db.QueryRowScan s (listSQLString q role userID schema table (r.ctx.queries.getD []))
    with ⟨s1, err | json⟩
  · dsimp only
    split <;> rfl
  · rfl

/-- The statement `ShowSingle` executes. -/
theorem ShowSingle_executed (q : Sql Q) (db : DB σ) (r : Request) (s : σ)
    (role userID schema table record : String)
    (hrole : r.ctx.role = some role) (huser : r.ctx.userID = some userID)
    (hschema : r.ctx.schema = some schema) (htable : r.ctx.table = some table)
    (hrecord : r.ctx.record = some record) :
    (ShowSingle q db r s).executed = [singleSQLString q role userID schema table record] := by
  simp only [ShowSingle, AllOK, hrole, huser, hschema, htable, hrecord, Option.isSome_some,
    List.all_cons, List.all_nil, id, Bool.and_self, Bool.not_true, Bool.false_eq_true,
    if_false, Option.getD_some]
  rcases db.QueryRowScan s (singleSQLString q role userID schema table record)
    with ⟨s1, err | json⟩ <;> rfl

/-- The statement `DeleteRecord` executes. -/
theorem DeleteRecord_statement (q : Sql Q) (db : DB σ) (r : Request) (s : σ)
    (role userID schema table record : String)
    (hrole : r.ctx.role = some role) (huser : r.ctx.userID = some userID)
    (hschema : r.ctx.schema = some schema) (htable : r.ctx.table = some table)
    (hrecord : r.ctx.record = some record) :
    (DeleteRecord q db r s).executed =
      [deleteSQLString q role userID schema (baseTable table) record] := by
  simp only [DeleteRecord, AllOK, hrole, huser, hschema, htable, hrecord, Option.isSome_some,
    List.all_cons, List.all_nil, id, Bool.and_self, Bool.not_true, Bool.false_eq_true,
    if_false, Option.getD_some]
  rcases db.Exec s (deleteSQLString q role userID schema (baseTable table) record)
    with ⟨s1, err | n⟩
  · rfl
  · dsimp only
    split <;> rfl

/-- The statement `UpdateRecord` executes for a body with column data. -/
theorem UpdateRecord_statement (q : Sql Q) (db : DB σ) (r : Request) (s : σ)
    (role userID schema table record : String) (d : Decoded)
    (hrole : r.ctx.role = some role) (huser : r.ctx.userID = some userID)
    (hschema : r.ctx.schema = some schema) (htable : r.ctx.table = some table)
    (hrecord : r.ctx.record = some record)
    (hbody : r.Body = some d) (hnonempty : d.requestBody ≠ []) :
    (UpdateRecord q db r s).executed =
      [updateSQLString q role userID schema (baseTable table) record d.requestBody] := by
  simp only [UpdateRecord, AllOK, hrole, huser, hschema, htable, hrecord, hbody,
    Option.isSome_some, List.all_cons, List.all_nil, id, Bool.and_self, Bool.not_true,
    Bool.false_eq_true, if_false, Option.getD_some, Option.isNone_some, Option.map, Option.getD,
    Bool.false_or, beq_iff_eq, List.length_eq_zero, hnonempty]
  rcases db.QueryRowScan s
    (updateSQLString q role userID schema (baseTable table) record d.requestBody)
    with ⟨s1, err | json⟩
  · dsimp only
    split <;> rfl
  · rfl

/-- The statement `InsertRecord` executes when the body decodes or is blank. -/
theorem InsertRecord_statement (q : Sql Q) (db : DB σ) (r : Request) (s : σ)
    (role userID schema table : String)
    (hrole : r.ctx.role = some role) (huser : r.ctx.userID = some userID)
    (hschema : r.ctx.schema = some schema) (htable : r.ctx.table = some table)
    (hdecode : r.Body.bind Decoded.bodyDecodeError = none ∨
      r.Body.bind Decoded.bodyDecodeError = some GoError.eof) :
    (InsertRecord q db r s).executed =
      [insertSQLString q role userID schema (baseTable table) r.Body] := by
  have hrun : ∀ sqlString, (insertAndRespond q db sqlString schema (baseTable table) s).executed =
      [sqlString] := by
    intro sqlString
    unfold insertAndRespond
    split <;> rfl
  rcases hdecode with h | h <;>
    simp [InsertRecord, AllOK, hrole, huser, hschema, htable, h, hrun]

/-- C12: for every table name on the context, `InsertRecord`, `UpdateRecord` and
`DeleteRecord` build their statement against the portion of the name before its first
underscore (the whole name when it has none), so that `orders_view` is written as `orders`;
that portion has no underscore and is left unchanged by a second normalization; `ShowList`
and `ShowSingle` use the name unmodified. -/
theorem write_handlers_use_base_table (q : Sql Q) (db : DB σ) (r : Request) (s : σ)
    (role userID schema table record : String)
    (hrole : r.ctx.role = some role) (huser : r.ctx.userID = some userID)
    (hschema : r.ctx.schema = some schema) (htable : r.ctx.table = some table)
    (hrecord : r.ctx.record = some record) :
    (baseTable table = beforeFirstUnderscore table ∧
      baseTable "orders_view" = "orders" ∧
      '_' ∉ (baseTable table).data ∧
      baseTable (baseTable table) = baseTable table ∧
      ('_' ∉ table.data → baseTable table = table)) ∧
    (r.Body.bind Decoded.bodyDecodeError = none ∨
        r.Body.bind Decoded.bodyDecodeError = some GoError.eof →
      (InsertRecord q db r s).executed =
        [insertSQLString q role userID schema (beforeFirstUnderscore table) r.Body]) ∧
    (∀ d, r.Body = some d → d.requestBody ≠ [] →
      (UpdateRecord q db r s).executed =
        [updateSQLString q role userID schema (beforeFirstUnderscore table) record
          d.requestBody]) ∧
    (DeleteRecord q db r s).executed =
      [deleteSQLString q role userID schema (beforeFirstUnderscore table) record] ∧
    (ShowList q db r s).executed =
      [listSQLString q role userID schema table (r.ctx.queries.getD [])] ∧
    (ShowSingle q db r s).executed = [singleSQLString q role userID schema table record] := by
  have hnone : ∀ t : String, '_' ∉ (beforeFirstUnderscore t).data := by
    intro t hmem
    have := List.mem_takeWhile_imp (show '_' ∈ t.data.takeWhile (fun c => c ≠ '_') from hmem)
    simp at this
  have hself : ∀ t : String, '_' ∉ t.data → beforeFirstUnderscore t = t := by
    intro t ht
    have h : t.data.takeWhile (fun c => decide (c ≠ '_')) = t.data := by
      rw [List.takeWhile_eq_self_iff]
      intro x hx
      have : x ≠ '_' := fun h => ht (h ▸ hx)
      simpa using this
    unfold beforeFirstUnderscore
    rw [h]
  refine ⟨⟨baseTable_eq_beforeFirstUnderscore table, by decide, ?_, ?_, ?_⟩, ?_, ?_, ?_, ?_, ?_⟩
  · rw [baseTable_eq_beforeFirstUnderscore]
    exact hnone table
  · rw [baseTable_eq_beforeFirstUnderscore, baseTable_eq_beforeFirstUnderscore]
    exact hself _ (hnone table)
  · intro h
    rw [baseTable_eq_beforeFirstUnderscore]
    exact hself table h
  · intro hdecode
    rw [← baseTable_eq_beforeFirstUnderscore]
    exact InsertRecord_statement q db r s role userID schema table hrole huser hschema htable
      hdecode
  · intro d hbody hnonempty
    rw [← baseTable_eq_beforeFirstUnderscore]
    exact UpdateRecord_statement q db r s role userID schema table record d hrole huser hschema
      htable hrecord hbody hnonempty
  · rw [← baseTable_eq_beforeFirstUnderscore]
    exact DeleteRecord_statement q db r s role userID schema table record hrole huser hschema
      htable hrecord
  · exact ShowList_executed q db r s role userID schema table hrole huser hschema htable
  · exact ShowSingle_executed q db r s role userID schema table record hrole huser hschema
      htable hrecord

/-- C12, at the request for record `7` of `orders_view`: the delete is written against
`orders`, the single-record query against `orders_view`. -/
theorem write_handlers_use_base_table_witness :
    (DeleteRecord tableSql sampleDB ⟨sampleContext, none⟩ []).executed =
        ["DELETE FROM shop.orders WHERE id = 7"] ∧
      (ShowSingle tableSql sampleDB ⟨sampleContext, none⟩ []).executed =
        ["SELECT * FROM shop.orders_view WHERE id = 7"] :=
  ⟨(write_handlers_use_base_table tableSql sampleDB ⟨sampleContext, none⟩ [] "web" "u1" "shop"
      "orders_view" "7" rfl rfl rfl rfl rfl).2.2.2.1,
    (write_handlers_use_base_table tableSql sampleDB ⟨sampleContext, none⟩ [] "web" "u1" "shop"
      "orders_view" "7" rfl rfl rfl rfl rfl).2.2.2.2.2⟩

/-! ## C13: a hyphen in the table name -/

/-- C13 fails on the code: the write handlers split the table name at underscores only. The
name `orders-view` is kept whole and `a-b_c` becomes `a-b`, where the prefix before the first
hyphen or underscore is `orders` and `a`; the delete of a record of `orders-view` is written
against `orders-view`. -/
theorem hyphen_is_not_a_separator :
    baseTable "orders-view" = "orders-view" ∧
      beforeFirstSeparator "orders-view" = "orders" ∧
      baseTable "a-b_c" = "a-b" ∧
      beforeFirstSeparator "a-b_c" = "a" ∧
      (DeleteRecord tableSql sampleDB ⟨contextOfTable "orders-view", none⟩ []).executed =
        ["DELETE FROM shop.orders-view WHERE id = 7"] ∧
      (InsertRecord tableSql sampleDB ⟨contextOfTable "orders-view", none⟩ []).executed =
        ["INSERT INTO shop.orders-view DEFAULT VALUES"] ∧
      (UpdateRecord tableSql sampleDB
        ⟨contextOfTable "a-b_c", some ⟨[("total", "3")], none⟩⟩ []).executed =
        ["UPDATE shop.a-b SET (total) = (3) WHERE id = 7"] := by
  decide

/-! ## C14: a driver error whose message contains `sql` -/

/-- C14 fails on the code: a driver error with code `42P01` and the message
"relation shop.sqlorders does not exist" is translated by `ShowSingle`, `InsertRecord` and
`DeleteRecord`, but `ShowList` answers it with the empty array and `UpdateRecord` with 404
and an empty database code, because the text of the error contains `sql`. -/
theorem driver_error_with_sql_in_message_is_not_translated :
    (ShowList sampleSql
        (failingDB (GoError.pq "42P01" "relation shop.sqlorders does not exist"))
        ⟨sampleContext, none⟩ ()).response =
        Response.write "application/json; charset=utf-8" "[]" ∧
      (UpdateRecord sampleSql
        (failingDB (GoError.pq "42P01" "relation shop.sqlorders does not exist"))
        ⟨sampleContext, some ⟨[("total", "3")], none⟩⟩ ()).response =
        Response.errorJSON 404 ⟨404, "", "No record with that id", "shop", "orders", "7"⟩ ∧
      (ShowSingle sampleSql
        (failingDB (GoError.pq "42P01" "relation shop.sqlorders does not exist"))
        ⟨sampleContext, none⟩ ()).response =
        Response.errorJSON 500
          ⟨500, "42P01", "relation shop.sqlorders does not exist", "shop", "orders_view", "7"⟩ ∧
      (InsertRecord sampleSql
        (failingDB (GoError.pq "42P01" "relation shop.sqlorders does not exist"))
        ⟨sampleContext, none⟩ ()).response =
        Response.errorJSON 500
          ⟨500, "42P01", "relation shop.sqlorders does not exist", "shop", "orders", ""⟩ ∧
      (DeleteRecord sampleSql
        (failingDB (GoError.pq "42P01" "relation shop.sqlorders does not exist"))
        ⟨sampleContext, none⟩ ()).response =
        Response.errorJSON 500
          ⟨500, "42P01", "relation shop.sqlorders does not exist", "shop", "orders", "7"⟩ := by
  decide

/-! ## C15: an error that is not a driver error -/

/-- C15 fails on the code: when the database call fails with a connection error, which is not
a `*pq.Error` and whose text does not contain `sql`, each of the five handlers reaches
`err.(*pq.Error)` and panics; so do `InsertRecord` and `DeleteRecord` on `sql.ErrNoRows`. -/
theorem handlers_panic_on_other_errors :
    (ShowList sampleSql (failingDB (GoError.other "dial tcp: connection refused"))
        ⟨sampleContext, none⟩ ()).response = Response.panic ∧
      (ShowSingle sampleSql (failingDB (GoError.other "dial tcp: connection refused"))
        ⟨sampleContext, none⟩ ()).response = Response.panic ∧
      (InsertRecord sampleSql (failingDB (GoError.other "dial tcp: connection refused"))
        ⟨sampleContext, none⟩ ()).response = Response.panic ∧
      (UpdateRecord sampleSql (failingDB (GoError.other "dial tcp: connection refused"))
        ⟨sampleContext, some ⟨[("total", "3")], none⟩⟩ ()).response = Response.panic ∧
      (DeleteRecord sampleSql (failingDB (GoError.other "dial tcp: connection refused"))
        ⟨sampleContext, none⟩ ()).response = Response.panic ∧
      (InsertRecord sampleSql (failingDB GoError.errNoRows)
        ⟨sampleContext, none⟩ ()).response = Response.panic ∧
      (DeleteRecord sampleSql (failingDB GoError.errNoRows)
        ⟨sampleContext, none⟩ ()).response = Response.panic := by
  decide

/-! ## C16: the context an error response carries -/

/-- C16 does not hold as stated: for the request against `orders_view`, the not-found response
of `DeleteRecord` and the body rejection of `UpdateRecord` carry the table `orders`, not the
table the request was made against; and the translated database error of `UpdateRecord`
carries an empty record although record `7` is on the context. -/
theorem error_response_table_is_base_table :
    sampleContext.table = some "orders_view" ∧ sampleContext.record = some "7" ∧
      (DeleteRecord sampleSql sampleDB ⟨sampleContext, none⟩ []).response =
        Response.errorJSON 404 ⟨404, "", "No record with that id", "shop", "orders", "7"⟩ ∧
      (UpdateRecord sampleSql sampleDB ⟨sampleContext, none⟩ []).response =
        Response.errorJSON 400
          ⟨400, "", "Invalid or absent request body", "shop", "orders", "7"⟩ ∧
      (UpdateRecord sampleSql (failingDB (GoError.pq "23505" "duplicate key value"))
        ⟨sampleContext, some ⟨[("total", "3")], none⟩⟩ ()).response =
        Response.errorJSON 409 ⟨409, "23505", "duplicate key value", "shop", "orders", ""⟩ := by
  decide

/-- The context fields of a translated database error. -/
theorem renderDBError_fields (q : Sql Q) (err : GoError) (schema table record : String)
    (status : Nat) (payload : ResponseError)
    (h : renderDBError q err schema table record = Response.errorJSON status payload) :
    payload.schema = schema ∧ payload.table = table ∧ payload.record = record := by
  unfold renderDBError at h
  cases hpq : err.asPqError with
  | none => rw [hpq] at h; cases h
  | some cm =>
    rw [hpq] at h
    simp only [Response.errorJSON.injEq] at h
    rw [← h.2]
    exact ⟨rfl, rfl, rfl⟩

/-- C16, amended: for `ShowSingle`, `UpdateRecord` and `DeleteRecord`, whenever the record
identifier is on the context, every error response rendered after the context check has its
schema field equal to the schema of the request and its table field equal to the table the
handler works on: the table of the request for `ShowSingle`, the portion of it before the
first underscore for `UpdateRecord` and `DeleteRecord`. The record field equals the
identifier in every error response of `ShowSingle` and `DeleteRecord`, and in those of
`UpdateRecord` whenever the statement, if one was executed and failed, failed with an error
whose text contains `sql` (the rejection of the body and the not-found response); nothing is
said of the record field of the translated database error of `UpdateRecord`. -/
theorem error_responses_carry_context (q : Sql Q) (db : DB σ) (r : Request) (s : σ)
    (role userID schema table record : String)
    (hrole : r.ctx.role = some role) (huser : r.ctx.userID = some userID)
    (hschema : r.ctx.schema = some schema) (htable : r.ctx.table = some table)
    (hrecord : r.ctx.record = some record) :
    (∀ status payload, (ShowSingle q db r s).response = Response.errorJSON status payload →
      payload.schema = schema ∧ payload.table = table ∧ payload.record = record) ∧
    (∀ status payload, (DeleteRecord q db r s).response = Response.errorJSON status payload →
      payload.schema = schema ∧ payload.table = baseTable table ∧ payload.record = record) ∧
    (∀ status payload, (UpdateRecord q db r s).response = Response.errorJSON status payload →
      payload.schema = schema ∧ payload.table = baseTable table ∧
        ((∀ sqlString s1 err, (UpdateRecord q db r s).executed = [sqlString] →
            db.QueryRowScan s sqlString = (s1, Except.error err) →
            stringsContains err.Error "sql" = true) →
          payload.record = record)) := by
  refine ⟨?_, ?_, ?_⟩
  · intro status payload h
    simp only [ShowSingle, AllOK, hrole, huser, hschema, htable, hrecord, Option.isSome_some,
      List.all_cons, List.all_nil, id, Bool.and_self, Bool.not_true, Bool.false_eq_true,
      if_false, Option.getD_some] at h
    rcases hres : db.QueryRowScan s (singleSQLString q role userID schema table record)
      with ⟨s1, err | json⟩
    · rw [hres] at h
      exact renderDBError_fields q err schema table record status payload h
    · rw [hres] at h
      cases h
  · intro status payload h
    simp only [DeleteRecord, AllOK, hrole, huser, hschema, htable, hrecord, Option.isSome_some,
      List.all_cons, List.all_nil, id, Bool.and_self, Bool.not_true, Bool.false_eq_true,
      if_false, Option.getD_some] at h
    rcases hres : db.Exec s (deleteSQLString q role userID schema (baseTable table) record)
      with ⟨s1, err | n⟩
    · rw [hres] at h
      exact renderDBError_fields q err schema (baseTable table) record status payload h
    · rw [hres] at h
      dsimp only at h
      by_cases hn : n = 0
      · rw [if_pos hn] at h
        simp only [Response.errorJSON.injEq] at h
        rw [← h.2]
        exact ⟨rfl, rfl, rfl⟩
      · rw [if_neg hn] at h
        cases h
  · intro status payload h
    by_cases hreject : (r.Body.isNone || ((r.Body.map Decoded.requestBody).getD []).length == 0)
        = true
    · -- the body is rejected
      have hresp : (UpdateRecord q db r s).response = Response.errorJSON 400
          ⟨400, "", (match r.Body.bind Decoded.bodyDecodeError with
            | some err => err.Error
            | none => "Invalid or absent request body"), schema, baseTable table, record⟩ := by
        simp only [UpdateRecord, AllOK, hrole, huser, hschema, htable, hrecord,
          Option.isSome_some, List.all_cons, List.all_nil, id, Bool.and_self, Bool.not_true,
          Bool.false_eq_true, if_false, Option.getD_some, hreject, if_true]
      rw [hresp] at h
      simp only [Response.errorJSON.injEq] at h
      rw [← h.2]
      exact ⟨rfl, rfl, fun _ => rfl⟩
    · -- the statement is executed
      have hrun : UpdateRecord q db r s =
          (match db.QueryRowScan s (updateSQLString q role userID schema (baseTable table) record
              ((r.Body.map Decoded.requestBody).getD [])) with
          | (s1, Except.error err) =>
            if stringsContains err.Error "sql" then
              ⟨s1, [updateSQLString q role userID schema (baseTable table) record
                ((r.Body.map Decoded.requestBody).getD [])], Response.errorJSON 404
                ⟨404, "", "No record with that id", schema, baseTable table, record⟩⟩
            else ⟨s1, [updateSQLString q role userID schema (baseTable table) record
                ((r.Body.map Decoded.requestBody).getD [])],
                renderDBError q err schema (baseTable table) ""⟩
          | (s1, Except.ok dbResponse) =>
            ⟨s1, [updateSQLString q role userID schema (baseTable table) record
                ((r.Body.map Decoded.requestBody).getD [])],
              Response.write jsonContentType dbResponse⟩) := by
        simp only [UpdateRecord, AllOK, hrole, huser, hschema, htable, hrecord,
          Option.isSome_some, List.all_cons, List.all_nil, id, Bool.and_self, Bool.not_true,
          Bool.false_eq_true, if_false, Option.getD_some, hreject]
      rcases hres : db.QueryRowScan s (updateSQLString q role userID schema (baseTable table)
          record ((r.Body.map Decoded.requestBody).getD [])) with ⟨s1, err | json⟩
      · rw [hres] at hrun
        dsimp only at hrun
        by_cases hsql : stringsContains err.Error "sql" = true
        · rw [if_pos hsql] at hrun
          rw [hrun] at h
          simp only [Response.errorJSON.injEq] at h
          rw [← h.2]
          exact ⟨rfl, rfl, fun _ => rfl⟩
        · rw [if_neg hsql] at hrun
          have hfields := renderDBError_fields q err schema (baseTable table) "" status payload
            (by rw [hrun] at h; exact h)
          refine ⟨hfields.1, hfields.2.1, ?_⟩
          intro hall
          exact absurd (hall _ s1 err (by rw [hrun]) hres) hsql
      · rw [hres] at hrun
        rw [hrun] at h
        cases h

/-- C16 amended, at the concrete database without record `7`: the error responses of the
three handlers for the request against `orders_view`. -/
theorem error_responses_carry_context_witness :
    (∀ status payload,
        (ShowSingle sampleSql (failingDB (GoError.pq "23505" "duplicate key value"))
          ⟨sampleContext, none⟩ ()).response = Response.errorJSON status payload →
        payload.schema = "shop" ∧ payload.table = "orders_view" ∧ payload.record = "7") ∧
      (∀ status payload,
        (DeleteRecord sampleSql sampleDB ⟨sampleContext, none⟩ []).response =
          Response.errorJSON status payload →
        payload.schema = "shop" ∧ payload.table = baseTable "orders_view" ∧
          payload.record = "7") ∧
      (ShowSingle sampleSql (failingDB (GoError.pq "23505" "duplicate key value"))
        ⟨sampleContext, none⟩ ()).response =
        Response.errorJSON 409
          ⟨409, "23505", "duplicate key value", "shop", "orders_view", "7"⟩ :=
  ⟨(error_responses_carry_context sampleSql
      (failingDB (GoError.pq "23505" "duplicate key value")) ⟨sampleContext, none⟩ ()
      "web" "u1" "shop" "orders_view" "7" rfl rfl rfl rfl rfl).1,
    (error_responses_carry_context sampleSql sampleDB ⟨sampleContext, none⟩ []
      "web" "u1" "shop" "orders_view" "7" rfl rfl rfl rfl rfl).2.1,
    by decide⟩

end Core
